import Mathlib

/-!
# Verification of the cascading slot-machine engine (`client/src/lib/gameEngine.ts`)

This file gives a shallow embedding of the spin-resolution engine and proves
properties of it.  The repository ships three revisions of the same
`GameEngine` class: the first class in `gameEngine.ts` (called V1 below, the
most recent revision, with comments documenting its fixes), the second class
concatenated in the same file (V2), and an older revision in
`src/unnamed/part_000` (close to V2 in behaviour).  The embedding follows V1
except where a claim is specifically about a V2 / `part_000` function, in
which case that revision's function is embedded under a `V2` suffix.

Modelling conventions:

* JavaScript numbers are modelled as `ℤ`.  Every property proved here depends
  only on exact ring and order operations (comparisons, additions,
  subtractions, multiplications and `Math.floor` of a quotient, modelled with
  `Int.fdiv`), which integers model exactly.
* `Math.random()` is abstracted as oracle inputs that are passed explicitly:
  a weighted-sampler call site receives the already scaled roll
  (the value of `Math.random() * totalWeight`), and a
  `Math.floor(Math.random() * k)` call site receives the already floored
  draw.  Theorems quantify over the oracles, so they hold for every possible
  random outcome; hypotheses restrict a draw to its reachable range where the
  property needs it.
* The grid is a total function `Nat → Nat → Option GridCell`; `none` models a
  `null` array slot (the transient empty cell of the remove/drop phase).
  Only indices below the configured row and column counts are meaningful.
* Mutation of `this.state` is modelled by explicit state passing: each source
  method becomes a function from the old state (plus oracles) to the new
  state, and `spin` is the composition of those functions in source order.
-/

namespace Food

/-- Symbol catalog entry (`interface Symbol` in `gameEngine.ts`).  The
optional payout table holds the three count tiers `'12+'`, `'10-11'`,
`'8-9'`. -/
structure Payouts where
  twelvePlus : Option ℤ
  tenEleven : Option ℤ
  eightNine : Option ℤ
deriving DecidableEq

/-- A catalog symbol: id, name, sampling weight, optional payout tiers and
the scatter flag (`isScatter?: boolean`; an absent flag is falsy, modelled as
`false`). -/
structure Symbol where
  id : String
  name : String
  weight : ℤ
  payouts : Option Payouts
  isScatter : Bool
deriving DecidableEq

instance : Inhabited Symbol := ⟨⟨"", "", 0, Option.none, false⟩⟩

/-- One grid cell (`interface GridCell`): an owned copy of a symbol plus the
cell's row/col fields and its animation identity string. -/
structure GridCell where
  symbol : Symbol
  row : Nat
  col : Nat
  id : String
deriving DecidableEq

instance : Inhabited GridCell := ⟨⟨default, 0, 0, ""⟩⟩

/-- An active collection objective (`interface Order`). -/
structure Order where
  symbolId : String
  quantity : ℤ
  collected : ℤ
  tipMultiplier : ℤ
  completed : Bool
deriving DecidableEq

/-- One resolved winning cluster (`interface WinInfo`). -/
structure WinInfo where
  symbol : Symbol
  cells : List GridCell
  count : Nat
  payout : ℤ
deriving DecidableEq

/-- The 2-D cell matrix.  `g r c = none` models a `null` slot. -/
def Grid : Type := Nat → Nat → Option GridCell

/-- One detect-pay-remove-drop-refill iteration, with the four snapshots V1
stores for replay (`interface CascadeStep`). -/
structure CascadeStep where
  wins : List WinInfo
  gridBeforeRemoval : Grid
  gridAfterRemoval : Grid
  gridAfterDrop : Grid
  gridAfterFill : Grid

/-- The ante modifier (`anteMode: 'none' | 'low' | 'high'`). -/
inductive AnteMode where
  | none
  | low
  | high
deriving DecidableEq

/-- The engine's sole mutable resource (`interface GameState`). -/
structure GameState where
  grid : Grid
  balance : ℤ
  currentBet : ℤ
  totalWin : ℤ
  isSpinning : Bool
  isFreeSpins : Bool
  freeSpinsRemaining : Nat
  orders : List Order
  anteMode : AnteMode
  cascadeSteps : List CascadeStep

/-- A buy-bonus package (`gameConfig.freeSpins.cheapPackage` /
`standardPackage`). -/
structure BonusPackage where
  cost : ℤ
  spins : Nat
  maxOrders : Nat
  tipMultipliers : List ℤ

/-- The static configuration consumed by the engine (`gameConfig.json` and
`symbolsConfig.gridSize` / `minWinSymbols`).  The JSON files themselves are
not part of the sources, so concrete instances used in witnesses are modelled
from the spec's illustrative values; all theorems are parametric in the
configuration. -/
structure GameConfig where
  rows : Nat
  columns : Nat
  minWinSymbols : Nat
  defaultBet : ℤ
  minBet : ℤ
  maxBet : ℤ
  lowAnteMultiplier : ℤ
  highAnteMultiplier : ℤ
  lowAnteScatterBoost : ℤ
  highAnteScatterBoost : ℤ
  lowAnteOrderChance : ℤ
  highAnteOrderChance : ℤ
  normalOrderChance : ℤ
  normalMinQuantity : ℤ
  normalMaxQuantity : ℤ
  normalTipMultipliers : List ℤ
  fsMinOrders : Nat
  fsMaxOrders : Nat
  fsMinQuantity : ℤ
  fsMaxQuantity : ℤ
  scatterTrigger : ℤ
  spinsAwarded : Nat
  superBonusMultiplier : ℤ
  cheapPackage : BonusPackage
  standardPackage : BonusPackage

/-- The food-symbol subset precomputed in the constructor:
`this.foodSymbols = this.symbols.filter(s => !s.isScatter)`. -/
def foodsOf (symbols : List Symbol) : List Symbol :=
  symbols.filter (fun s => !s.isScatter)

/-- The precomputed total food weight:
`this.foodTotalWeight = this.foodSymbols.reduce((sum, s) => sum + s.weight, 0)`. -/
def totalWeight (symbols : List Symbol) : ℤ :=
  symbols.foldl (fun sum s => sum + s.weight) 0

/-- The accumulate-and-compare walk of V1's `getRandomFoodSymbol`:
`accumulated += weight; if (roll < accumulated) return clone`.  Returns
`none` when the loop falls through without crossing the threshold. -/
def pickLoop : List Symbol → ℤ → ℤ → Option Symbol
  | [], _, _ => Option.none
  | s :: rest, roll, accumulated =>
    let accumulated' := accumulated + s.weight
    if roll < accumulated' then some s else pickLoop rest roll accumulated'

/-- V1's `getRandomFoodSymbol`, the sampler used for the initial grid and
every refill of V1.  `roll` is the oracle for `Math.random() * foodTotalWeight`.
On fall-through it returns the LAST candidate
(`return { ...this.foodSymbols[this.foodSymbols.length - 1] }`). -/
def getRandomFoodSymbol (foods : List Symbol) (roll : ℤ) : Symbol :=
  match pickLoop foods roll 0 with
  | some s => s
  | Option.none => foods.getLastD default

/-- The subtract-and-compare walk of V2's `getRandomSymbol`:
`random -= symbol.weight; if (random <= 0) return symbol`. -/
def subLoop : List Symbol → ℤ → Option Symbol
  | [], _ => Option.none
  | s :: rest, random =>
    let random' := random - s.weight
    if random' ≤ 0 then some s else subLoop rest random'

/-- V2's `getRandomSymbol(excludeScatter)` (`gameEngine.ts:671-684`; the
`part_000` revision is identical up to cloning).  `roll` is the oracle for
`Math.random() * totalWeight`.  On fall-through it returns the FIRST
candidate (`return availableSymbols[0]`). -/
def getRandomSymbolV2 (symbols : List Symbol) (excludeScatter : Bool) (roll : ℤ) : Symbol :=
  let availableSymbols := if excludeScatter then symbols.filter (fun s => !s.isScatter) else symbols
  match subLoop availableSymbols roll with
  | some s => s
  | Option.none => availableSymbols.headD default

/-- V1's `generateInitialGrid`: every cell sampled with `getRandomFoodSymbol`
(the scatter-free sampler).  `rolls` and `ids` are the per-cell oracles for
the symbol roll and the generated `id` string. -/
def generateInitialGrid (cfg : GameConfig) (foods : List Symbol)
    (rolls : Nat → Nat → ℤ) (ids : Nat → Nat → String) : Grid :=
  fun r c =>
    if r < cfg.rows ∧ c < cfg.columns then
      some ⟨getRandomFoodSymbol foods (rolls r c), r, c, ids r c⟩
    else
      Option.none

/-- V2's `generateInitialGrid`: every cell sampled with
`this.getRandomSymbol()` — scatter INCLUDED (`excludeScatter` defaults to
`false`). -/
def generateInitialGridV2 (cfg : GameConfig) (symbols : List Symbol)
    (rolls : Nat → Nat → ℤ) (ids : Nat → Nat → String) : Grid :=
  fun r c =>
    if r < cfg.rows ∧ c < cfg.columns then
      some ⟨getRandomSymbolV2 symbols false (rolls r c), r, c, ids r c⟩
    else
      Option.none

/-- Indicator of a scatter cell (`cell && cell.symbol && cell.symbol.isScatter`). -/
def scatterInd : Option GridCell → Nat
  | some cell => if cell.symbol.isScatter then 1 else 0
  | Option.none => 0

/-- The scatter tally of `checkFreeSpinsTrigger`: count the in-range non-null
cells whose symbol has the scatter flag. -/
def scatterCount (R C : Nat) (g : Grid) : Nat :=
  ∑ r ∈ Finset.range R, ∑ c ∈ Finset.range C, scatterInd (g r c)

end Food

namespace Food

/-- The row-major scan of V1's `findWinningCombinations`: collect every
non-null cell, skipping scatters and cells whose symbol id is the empty
string (the source's validity guard; ids are always strings in the typed
model). -/
def scanCells (R C : Nat) (g : Grid) : List GridCell :=
  (List.range R).flatMap (fun r =>
    (List.range C).filterMap (fun c =>
      match g r c with
      | some cell =>
        if cell.symbol.isScatter = false ∧ cell.symbol.id ≠ "" then some cell else Option.none
      | Option.none => Option.none))

/-- Insertion into the `Map<string, GridCell[]>` of the win scan, preserving
the map's insertion order (first-seen key order). -/
def addToGroups : List (String × List GridCell) → GridCell → List (String × List GridCell)
  | [], cell => [(cell.symbol.id, [cell])]
  | (k, cs) :: rest, cell =>
    if k = cell.symbol.id then (k, cs ++ [cell]) :: rest
    else (k, cs) :: addToGroups rest cell

/-- Grouping the scanned cells by `symbol.id`, in first-seen order, as the
source's `Map` does. -/
def groupCells (cells : List GridCell) : List (String × List GridCell) :=
  cells.foldl addToGroups []

/-- V1's `findWinningCombinations`: every id group of at least
`minWinSymbols` cells whose id resolves in the food catalog becomes a
`WinInfo` (an unresolvable id is skipped, the defensive branch that logs a
warning). -/
def findWinningCombinations (cfg : GameConfig) (foods : List Symbol) (g : Grid) : List WinInfo :=
  (groupCells (scanCells cfg.rows cfg.columns g)).filterMap (fun p =>
    if cfg.minWinSymbols ≤ p.2.length then
      match foods.find? (fun s => s.id = p.1) with
      | some symbolDef => some ⟨symbolDef, p.2, p.2.length, 0⟩
      | Option.none => Option.none
    else
      Option.none)

/-- V1's `calculatePayout`: non-overlapping tier lookup with `?? 0` for a
missing tier and 0 below the minimum bucket. -/
def calculatePayout (symbol : Symbol) (count : Nat) : ℤ :=
  match symbol.payouts with
  | Option.none => 0
  | some payouts =>
    if 12 ≤ count then payouts.twelvePlus.getD 0
    else if 10 ≤ count then payouts.tenEleven.getD 0
    else if 8 ≤ count then payouts.eightNine.getD 0
    else 0

/-- `updateOrderProgress`: every non-completed order matching the symbol id
advances, capped at its quantity. -/
def updateOrderProgress (orders : List Order) (symbolId : String) (count : Nat) : List Order :=
  orders.map (fun order =>
    if order.symbolId = symbolId ∧ order.completed = false then
      { order with collected := min (order.collected + (count : ℤ)) order.quantity }
    else
      order)

/-- `removeWinningSymbols`: null out the grid position recorded in each
winning cell's own row/col fields (the source guards on the row existing and
the slot being non-null; nulling a null slot is a no-op, so the guard reduces
to the range check). -/
def removeWinningSymbols (cfg : GameConfig) (wins : List WinInfo) (g : Grid) : Grid :=
  fun r c =>
    if r < cfg.rows ∧ c < cfg.columns ∧
        wins.any (fun w => w.cells.any (fun cell => cell.row = r ∧ cell.col = c)) then
      Option.none
    else
      g r c

/-- Column `c` of the grid read top to bottom, rows `0..R-1`. -/
def columnOf (R : Nat) (g : Grid) (c : Nat) : List (Option GridCell) :=
  (List.range R).map (fun r => g r c)

/-- The bottom-up re-write of `dropSymbols`: place the surviving cells at
consecutive rows starting from `startRow`, updating each cell's row/col
fields as the source does (`cell.row = writeRow; cell.col = col`). -/
def placeSurvivors (c : Nat) : Nat → List GridCell → List (Option GridCell)
  | _, [] => []
  | startRow, cell :: rest =>
    some { cell with row := startRow, col := c } :: placeSurvivors c (startRow + 1) rest

/-- One column of V1's `dropSymbols`, denotationally: the source collects the
non-null cells bottom-to-top, clears the column, and re-writes them from the
bottom row upward; read top-to-bottom that yields `R - k` empty slots
followed by the `k` survivors in their original top-to-bottom order, each
re-labelled with its new position. -/
def dropColumn (R c : Nat) (colCells : List (Option GridCell)) : List (Option GridCell) :=
  let kept := colCells.filterMap id
  List.replicate (R - kept.length) Option.none ++ placeSurvivors c (R - kept.length) kept

/-- V1's `dropSymbols`: per-column compaction over columns `0..C-1`. -/
def dropSymbols (R C : Nat) (g : Grid) : Grid :=
  fun r c =>
    if r < R ∧ c < C then (dropColumn R c (columnOf R g c)).getD r Option.none
    else g r c

/-- V1's `fillEmptySpaces`: every in-range null slot receives a fresh cell
sampled with `getRandomFoodSymbol` (scatter-free). -/
def fillEmptySpaces (cfg : GameConfig) (foods : List Symbol)
    (rolls : Nat → Nat → ℤ) (ids : Nat → Nat → String) (g : Grid) : Grid :=
  fun r c =>
    if r < cfg.rows ∧ c < cfg.columns then
      match g r c with
      | some cell => some cell
      | Option.none => some ⟨getRandomFoodSymbol foods (rolls r c), r, c, ids r c⟩
    else g r c

/-- `cloneGrid` produces a deep copy of an immutable value, which in the
value-semantics embedding is the grid itself. -/
def cloneGrid (g : Grid) : Grid := g

/-- Everything `processCascades` threads through its `while (true)` loop:
the live grid, the live orders, and the three accumulators (`totalWin`,
`allWins`, `cascadeSteps`) plus the cascade counter. -/
structure CascadeResult where
  grid : Grid
  orders : List Order
  totalWin : ℤ
  allWins : List WinInfo
  steps : List CascadeStep
  cascades : Nat

/-- The body of V1's `processCascades`, with explicit fuel: the source loop
is `while (true)` with no iteration bound, so the embedding returns `none`
when `fuel` iterations did not reach a win-free scan (the call would still be
running).  `refillRolls i` / `refillIds i` are the refill oracles of
iteration `i`. -/
def cascadeLoop (cfg : GameConfig) (foods : List Symbol) (bet : ℤ)
    (refillRolls : Nat → Nat → Nat → ℤ) (refillIds : Nat → Nat → Nat → String) :
    Nat → Grid → List Order → ℤ → List WinInfo → List CascadeStep → Nat → Option CascadeResult
  | 0, _, _, _, _, _, _ => Option.none
  | fuel + 1, g, orders, totalWin, allWins, steps, iter =>
    let wins := findWinningCombinations cfg foods g
    if wins.isEmpty then
      some ⟨g, orders, totalWin, allWins, steps, iter⟩
    else
      let paidWins := wins.map (fun w => { w with payout := calculatePayout w.symbol w.count * bet })
      let totalWin' := paidWins.foldl (fun acc w => acc + w.payout) totalWin
      let orders' := paidWins.foldl (fun os w => updateOrderProgress os w.symbol.id w.count) orders
      let gridBeforeRemoval := cloneGrid g
      let gridAfterRemoval := cloneGrid (removeWinningSymbols cfg paidWins g)
      let gridAfterDrop := cloneGrid (dropSymbols cfg.rows cfg.columns gridAfterRemoval)
      let gridAfterFill :=
        cloneGrid (fillEmptySpaces cfg foods (refillRolls iter) (refillIds iter) gridAfterDrop)
      let step : CascadeStep := ⟨paidWins, gridBeforeRemoval, gridAfterRemoval,
        gridAfterDrop, gridAfterFill⟩
      cascadeLoop cfg foods bet refillRolls refillIds fuel gridAfterFill orders' totalWin'
        (allWins ++ paidWins) (steps ++ [step]) (iter + 1)

/-- V1's `processCascades`, started on the given grid and orders with empty
accumulators. -/
def processCascades (cfg : GameConfig) (foods : List Symbol) (bet : ℤ)
    (refillRolls : Nat → Nat → Nat → ℤ) (refillIds : Nat → Nat → Nat → String)
    (fuel : Nat) (g : Grid) (orders : List Order) : Option CascadeResult :=
  cascadeLoop cfg foods bet refillRolls refillIds fuel g orders 0 [] [] 0

end Food

namespace Food

/-- The draws of one `generateOrder` call.  `chanceRoll` is the oracle for
the `Math.random()` compared against the order chance; `symbolIdx` and
`tipIdx` are the floored index draws; `qtyDraw` the floored quantity draw
(the value of `Math.floor(Math.random() * (max - min + 1))`). -/
structure OrderRand where
  chanceRoll : ℤ
  symbolIdx : Nat
  qtyDraw : ℤ
  tipIdx : Nat

/-- The draws of one `triggerFreeSpins` call: the floored order-count draw
and, per generated order, the symbol / quantity / tip draws. -/
structure FsOrderRand where
  countDraw : Nat
  symbolIdx : Nat → Nat
  qtyDraw : Nat → ℤ
  tipIdx : Nat → Nat

/-- All `Math.random()` outcomes one `spin()` call can consume. -/
structure SpinRand where
  order : OrderRand
  gridRolls : Nat → Nat → ℤ
  gridIds : Nat → Nat → String
  refillRolls : Nat → Nat → Nat → ℤ
  refillIds : Nat → Nat → Nat → String
  fsOrders : FsOrderRand

/-- The ante-adjusted bet of `spin()` (`betAmount *= lowAnteMultiplier` /
`highAnteMultiplier`). -/
def anteBet (cfg : GameConfig) (s : GameState) : ℤ :=
  match s.anteMode with
  | AnteMode.none => s.currentBet
  | AnteMode.low => s.currentBet * cfg.lowAnteMultiplier
  | AnteMode.high => s.currentBet * cfg.highAnteMultiplier

/-- The order chance used by `generateOrder`, after the ante override. -/
def orderChance (cfg : GameConfig) (mode : AnteMode) : ℤ :=
  match mode with
  | AnteMode.none => cfg.normalOrderChance
  | AnteMode.low => cfg.lowAnteOrderChance
  | AnteMode.high => cfg.highAnteOrderChance

/-- V1's `generateOrder`: with the rolled chance, replace the order list by a
single fresh order for a random food symbol; otherwise leave the list as it
is (the caller has just cleared it). -/
def generateOrder (cfg : GameConfig) (foods : List Symbol) (mode : AnteMode)
    (rand : OrderRand) (orders : List Order) : List Order :=
  if rand.chanceRoll < orderChance cfg mode then
    [{ symbolId := (foods.getD rand.symbolIdx default).id
       quantity := rand.qtyDraw + cfg.normalMinQuantity
       collected := 0
       tipMultiplier := cfg.normalTipMultipliers.getD rand.tipIdx 0
       completed := false }]
  else
    orders

/-- The ante-adjusted scatter threshold of `checkFreeSpinsTrigger`:
`Math.max(1, Math.floor(scatterTrigger / boost))` under an ante mode. -/
def scatterThreshold (cfg : GameConfig) (mode : AnteMode) : ℤ :=
  match mode with
  | AnteMode.none => cfg.scatterTrigger
  | AnteMode.low => max 1 (Int.fdiv cfg.scatterTrigger cfg.lowAnteScatterBoost)
  | AnteMode.high => max 1 (Int.fdiv cfg.scatterTrigger cfg.highAnteScatterBoost)

/-- One order generated inside `triggerFreeSpins` (free-spin quantity range,
normal-mode tip multipliers). -/
def mkFsOrder (cfg : GameConfig) (foods : List Symbol) (rand : FsOrderRand) (i : Nat) : Order :=
  { symbolId := (foods.getD (rand.symbolIdx i) default).id
    quantity := rand.qtyDraw i + cfg.fsMinQuantity
    collected := 0
    tipMultiplier := cfg.normalTipMultipliers.getD (rand.tipIdx i) 0
    completed := false }

/-- `triggerFreeSpins`: enter free-spin mode, award the configured spins and
replace the order list by `minOrders + countDraw` fresh free-spin orders. -/
def triggerFreeSpins (cfg : GameConfig) (foods : List Symbol) (rand : FsOrderRand)
    (s : GameState) : GameState :=
  let orderCount := rand.countDraw + cfg.fsMinOrders
  { s with
    isFreeSpins := true
    freeSpinsRemaining := cfg.spinsAwarded
    orders := (List.range orderCount).map (mkFsOrder cfg foods rand) }

/-- `checkFreeSpinsTrigger`: count the scatters of the CURRENT grid and enter
free-spin mode when the count reaches the ante-adjusted threshold and the
engine is not already in free-spin mode. -/
def checkFreeSpinsTrigger (cfg : GameConfig) (foods : List Symbol) (rand : FsOrderRand)
    (s : GameState) : GameState :=
  if scatterThreshold cfg s.anteMode ≤ (scatterCount cfg.rows cfg.columns s.grid : ℤ) ∧
      s.isFreeSpins = false then
    triggerFreeSpins cfg foods rand s
  else
    s

/-- The completion predicate of `checkOrderCompletion`:
`order.collected >= order.quantity && !order.completed`. -/
def newlyComplete (order : Order) : Prop :=
  order.quantity ≤ order.collected ∧ order.completed = false

instance : DecidablePred newlyComplete := fun order =>
  inferInstanceAs (Decidable (order.quantity ≤ order.collected ∧ order.completed = false))

/-- `checkOrderCompletion`: mark every newly complete order, pay its tip into
balance and totalWin; in normal mode, additionally clear the order list when
no order completed on this spin. -/
def checkOrderCompletion (s : GameState) : GameState :=
  let completedOrders := s.orders.map (fun order =>
    if newlyComplete order then { order with completed := true } else order)
  let tips := (s.orders.filter (fun order => decide (newlyComplete order))).foldl
    (fun acc order => acc + s.currentBet * order.tipMultiplier) 0
  if s.isFreeSpins = false then
    if s.orders.any (fun order => decide (newlyComplete order)) then
      { s with orders := completedOrders, balance := s.balance + tips,
               totalWin := s.totalWin + tips }
    else
      { s with orders := [], balance := s.balance + tips, totalWin := s.totalWin + tips }
  else
    { s with orders := completedOrders, balance := s.balance + tips,
             totalWin := s.totalWin + tips }

/-- `checkAllOrdersCompletion` (session end): pay the super bonus when at
least one order exists and all are completed, then clear the orders. -/
def checkAllOrdersCompletion (cfg : GameConfig) (s : GameState) : GameState :=
  let bonus :=
    if s.orders.all (fun order => order.completed) ∧ s.orders ≠ [] then
      s.currentBet * cfg.superBonusMultiplier
    else 0
  { s with balance := s.balance + bonus, totalWin := s.totalWin + bonus, orders := [] }

/-- The free-spin countdown at the end of `spin()`: decrement while in
free-spin mode with spins remaining; on reaching zero, leave free-spin mode
and settle the session. -/
def freeSpinsCountdown (cfg : GameConfig) (s : GameState) : GameState :=
  if s.isFreeSpins = true ∧ 0 < s.freeSpinsRemaining then
    let remaining := s.freeSpinsRemaining - 1
    if remaining = 0 then
      checkAllOrdersCompletion cfg { s with freeSpinsRemaining := 0, isFreeSpins := false }
    else
      { s with freeSpinsRemaining := remaining }
  else
    s

/-- The returned `{ wins, cascades, totalWin }` of `spin()`. -/
structure SpinResult where
  wins : List WinInfo
  cascades : Nat
  totalWin : ℤ
deriving Inhabited

/-- The mutations `spin()` performs before the grid is generated: debit the
ante-adjusted bet, raise the reentrancy flag, reset `totalWin` and
`cascadeSteps`, and (outside free-spin mode) clear the orders and roll a
fresh one. -/
def spinPrepare (cfg : GameConfig) (foods : List Symbol) (rand : SpinRand)
    (s : GameState) : GameState :=
  let s1 := { s with
    balance := s.balance - anteBet cfg s
    isSpinning := true
    totalWin := 0
    cascadeSteps := [] }
  if s1.isFreeSpins = false then
    { s1 with orders := generateOrder cfg foods s1.anteMode rand.order [] }
  else
    s1

/-- The remainder of `spin()` once the freshly generated initial grid `g0`
is installed (`this.state.grid = this.generateInitialGrid()` onward):
cascades, trigger check, win credit, order completion, free-spin countdown.
Shared by the engine revisions, which differ only in how `g0` is sampled.
`none` models a call that never returns because the cascade loop did not
stabilise within `fuel` iterations. -/
def spinResolve (cfg : GameConfig) (foods : List Symbol) (fuel : Nat) (rand : SpinRand)
    (s : GameState) (g0 : Grid) : Option (GameState × SpinResult) :=
  match processCascades cfg foods s.currentBet rand.refillRolls rand.refillIds fuel g0
      s.orders with
  | Option.none => Option.none
  | some result =>
    let s1 := { s with grid := result.grid, orders := result.orders,
                       cascadeSteps := result.steps }
    let s2 := checkFreeSpinsTrigger cfg foods rand.fsOrders s1
    let s3 := { s2 with balance := s2.balance + result.totalWin,
                        totalWin := result.totalWin, isSpinning := false }
    let s4 := checkOrderCompletion s3
    let s5 := freeSpinsCountdown cfg s4
    some (s5, ⟨result.allWins, result.cascades, result.totalWin⟩)

/-- `spin()` with the initial grid abstracted as a parameter: the reentrancy
guard, the balance validation (`throw new Error('Insufficient balance')`
before any state mutation) and the resolution pipeline.  V1 instantiates
`g0` with its food-only `generateInitialGrid`, V2 with its scatter-inclusive
one. -/
def spinOnGrid (cfg : GameConfig) (foods : List Symbol) (fuel : Nat) (rand : SpinRand)
    (s : GameState) (g0 : Grid) : Option (GameState × Except String SpinResult) :=
  if s.isSpinning = true then
    some (s, Except.ok ⟨[], 0, 0⟩)
  else if s.balance < anteBet cfg s then
    some (s, Except.error ("Insufficient balance"))
  else
    (spinResolve cfg foods fuel rand (spinPrepare cfg foods rand s) g0).map
      (fun p => (p.1, Except.ok p.2))

/-- V1's `spin()`: the pipeline on the grid generated by V1's food-only
`generateInitialGrid`. -/
def spin (cfg : GameConfig) (foods : List Symbol) (fuel : Nat) (rand : SpinRand)
    (s : GameState) : Option (GameState × Except String SpinResult) :=
  spinOnGrid cfg foods fuel rand s (generateInitialGrid cfg foods rand.gridRolls rand.gridIds)

/-- The two buy-bonus package identifiers. -/
inductive PackageType where
  | cheap
  | standard
deriving DecidableEq

/-- The draws of one `buyFreeSpins` call. -/
structure BuyRand where
  symbolIdx : Nat → Nat
  qtyDraw : Nat → ℤ
  tipIdx : Nat → Nat

/-- One order generated inside `buyFreeSpins` (free-spin quantity range, the
package's own tip multipliers). -/
def mkBuyOrder (cfg : GameConfig) (foods : List Symbol) (pkg : BonusPackage) (rand : BuyRand)
    (i : Nat) : Order :=
  { symbolId := (foods.getD (rand.symbolIdx i) default).id
    quantity := rand.qtyDraw i + cfg.fsMinQuantity
    collected := 0
    tipMultiplier := pkg.tipMultipliers.getD (rand.tipIdx i) 0
    completed := false }

/-- The package selected by `buyFreeSpins`. -/
def packageOf (cfg : GameConfig) (packageType : PackageType) : BonusPackage :=
  match packageType with
  | PackageType.cheap => cfg.cheapPackage
  | PackageType.standard => cfg.standardPackage

/-- `buyFreeSpins(packageType)`: validate the balance against
`cost * currentBet` (failing before any mutation), then debit, enter
free-spin mode with the package's spins, and replace the orders by
`min(pkg.maxOrders, freeSpinsMode.maxOrders)` fresh package orders. -/
def buyFreeSpins (cfg : GameConfig) (foods : List Symbol) (packageType : PackageType)
    (rand : BuyRand) (s : GameState) : GameState × Except String Unit :=
  let pkg := packageOf cfg packageType
  if s.balance < pkg.cost * s.currentBet then
    (s, Except.error ("Insufficient balance"))
  else
    let orderCount := min pkg.maxOrders cfg.fsMaxOrders
    ({ s with
        balance := s.balance - pkg.cost * s.currentBet
        isFreeSpins := true
        freeSpinsRemaining := pkg.spins
        orders := (List.range orderCount).map (mkBuyOrder cfg foods pkg rand) },
      Except.ok ())

end Food

namespace Food

/-! ## Reference model of `getState` aliasing

`getState` of V1 and `part_000` returns `JSON.parse(JSON.stringify(this.state))`,
a deep copy.  V2's `getState` returns `{ ...this.state }`, which copies the
top-level record fields but keeps the same array objects, so the snapshot's
`orders` entries alias the live order objects.  To express aliasing in a
value-semantics setting, the mutable order objects are identified by
references into an explicit heap; `{ ...this.state }` copies the reference
list unchanged, while a deep clone would allocate fresh references. -/

/-- The heap of order objects. -/
structure OrderHeap where
  objs : Nat → Order

/-- The reference layer of the live state that matters for the aliasing
analysis: the `orders` array as a list of heap references. -/
structure RefState where
  ordersRefs : List Nat

/-- V2's `getState` — `return { ...this.state }`: the snapshot holds the very
same `orders` references as the live state. -/
def getStateV2 (s : RefState) : RefState :=
  { ordersRefs := s.ordersRefs }

/-- Dereference a snapshot's order list against the current heap. -/
def readOrders (h : OrderHeap) (refs : List Nat) : List Order :=
  refs.map h.objs

/-- `updateOrderProgress` acting in place on the heap objects referenced by
the live state (the in-place mutation `order.collected = Math.min(...)`). -/
def heapUpdateOrderProgress (h : OrderHeap) (refs : List Nat) (symbolId : String)
    (count : Nat) : OrderHeap :=
  { objs := fun p =>
      if p ∈ refs then
        let order := h.objs p
        if order.symbolId = symbolId ∧ order.completed = false then
          { order with collected := min (order.collected + (count : ℤ)) order.quantity }
        else order
      else h.objs p }

/-! ## Example data for concrete runs

The symbol catalog (`symbols.json`) and the game configuration
(`gameConfig.json`) are loaded from JSON files that are not among the
repository sources.  Modelled from the spec: a 5×6 grid with minimum win
size 8, an ante-`none` scatter trigger of 3, and a small catalog of food
symbols plus one scatter, following the spec's illustrative values
(`burger` with payout tier `8-9` of 10, bet 10, balance preset 1000000).
Values the spec leaves open (weights, the spins awarded, order ranges) are
picked arbitrarily; every general theorem below is parametric in them. -/

def burger : Symbol := ⟨"burger", "Burger", 10, some ⟨some 100, some 25, some 10⟩, false⟩

def pizza : Symbol := ⟨"pizza", "Pizza", 10, some ⟨some 80, some 20, some 8⟩, false⟩

def sushi : Symbol := ⟨"sushi", "Sushi", 8, some ⟨some 60, some 15, some 6⟩, false⟩

def taco : Symbol := ⟨"taco", "Taco", 8, some ⟨some 40, some 10, some 4⟩, false⟩

def scatterSymbol : Symbol := ⟨"scatter", "Scatter", 2, Option.none, true⟩

def exampleSymbols : List Symbol := [burger, pizza, sushi, taco, scatterSymbol]

def exampleFoods : List Symbol := foodsOf exampleSymbols

def exampleConfig : GameConfig where
  rows := 5
  columns := 6
  minWinSymbols := 8
  defaultBet := 10
  minBet := 1
  maxBet := 100
  lowAnteMultiplier := 2
  highAnteMultiplier := 3
  lowAnteScatterBoost := 2
  highAnteScatterBoost := 3
  lowAnteOrderChance := 1
  highAnteOrderChance := 1
  normalOrderChance := 0
  normalMinQuantity := 8
  normalMaxQuantity := 20
  normalTipMultipliers := [5, 10]
  fsMinOrders := 2
  fsMaxOrders := 4
  fsMinQuantity := 10
  fsMaxQuantity := 30
  scatterTrigger := 3
  spinsAwarded := 10
  superBonusMultiplier := 20
  cheapPackage := ⟨50, 5, 2, [3]⟩
  standardPackage := ⟨100, 10, 4, [5, 10]⟩

end Food

namespace Food

/-- The position-independent content of a cell (its symbol and identity),
used to state that compaction moves cells without altering them. -/
def cellContent (cell : GridCell) : Symbol × String :=
  (cell.symbol, cell.id)

lemma getD_range_map {α : Type _} (l : List α) (d : α) :
    (List.range l.length).map (fun i => l.getD i d) = l := by
  induction l with
  | nil => rfl
  | cons x xs ih =>
    rw [List.length_cons, List.range_succ_eq_map, List.map_cons, List.map_map]
    have hcomp : ((fun i => (x :: xs).getD i d) ∘ Nat.succ) = fun i => xs.getD i d := by
      funext i
      simp only [Function.comp_apply, List.getD_cons_succ]
    rw [List.getD_cons_zero, hcomp, ih]

lemma placeSurvivors_length (c : Nat) :
    ∀ (startRow : Nat) (l : List GridCell), (placeSurvivors c startRow l).length = l.length := by
  intro startRow l
  induction l generalizing startRow with
  | nil => rfl
  | cons cell rest ih => simp [placeSurvivors, ih]

lemma placeSurvivors_getD (c : Nat) :
    ∀ (l : List GridCell) (startRow j : Nat), j < l.length →
      (placeSurvivors c startRow l).getD j Option.none
        = some { l.getD j default with row := startRow + j, col := c } := by
  intro l
  induction l with
  | nil => intro startRow j h; simp at h
  | cons cell rest ih =>
    intro startRow j h
    cases j with
    | zero =>
      rw [placeSurvivors]
      simp
    | succ j =>
      rw [placeSurvivors, List.getD_cons_succ, List.getD_cons_succ,
        ih startRow.succ j (by simpa using h)]
      have hrow : startRow.succ + j = startRow + (j + 1) := by omega
      rw [hrow]

lemma placeSurvivors_content (c : Nat) :
    ∀ (startRow : Nat) (l : List GridCell),
      ((placeSurvivors c startRow l).filterMap id).map cellContent = l.map cellContent := by
  intro startRow l
  induction l generalizing startRow with
  | nil => rfl
  | cons cell rest ih => simp [placeSurvivors, ih, cellContent]

lemma kept_length_le (R c : Nat) (g : Grid) :
    ((columnOf R g c).filterMap id).length ≤ R := by
  calc ((columnOf R g c).filterMap id).length ≤ (columnOf R g c).length :=
        List.length_filterMap_le _ _
    _ = R := by simp [columnOf]

lemma dropColumn_length (R c : Nat) (g : Grid) :
    (dropColumn R c (columnOf R g c)).length = R := by
  have h := kept_length_le R c g
  unfold dropColumn
  rw [List.length_append, List.length_replicate, placeSurvivors_length]
  omega

lemma columnOf_dropSymbols (R C : Nat) (g : Grid) (c : Nat) (hc : c < C) :
    columnOf R (dropSymbols R C g) c = dropColumn R c (columnOf R g c) := by
  have hlen := dropColumn_length R c g
  unfold columnOf dropSymbols
  have hmap : (List.range R).map
      (fun r => if r < R ∧ c < C then (dropColumn R c (columnOf R g c)).getD r Option.none
        else g r c)
      = (List.range R).map (fun r => (dropColumn R c (columnOf R g c)).getD r Option.none) := by
    refine List.map_congr_left ?_
    intro r hr
    rw [List.mem_range] at hr
    simp [hr, hc]
  rw [hmap]
  calc (List.range R).map (fun r => (dropColumn R c (columnOf R g c)).getD r Option.none)
      = (List.range (dropColumn R c (columnOf R g c)).length).map
          (fun r => (dropColumn R c (columnOf R g c)).getD r Option.none) := by rw [hlen]
    _ = dropColumn R c (columnOf R g c) := getD_range_map _ _

lemma dropColumn_getD_low (R c : Nat) (g : Grid) (r : Nat)
    (hr : r < R - ((columnOf R g c).filterMap id).length) :
    (dropColumn R c (columnOf R g c)).getD r Option.none = Option.none := by
  unfold dropColumn
  rw [List.getD_append _ _ _ _ (by simpa using hr)]
  simp [List.getD, List.getElem?_replicate, hr]

lemma dropColumn_getD_high (R c : Nat) (g : Grid) (r : Nat)
    (hlow : R - ((columnOf R g c).filterMap id).length ≤ r) (hr : r < R) :
    (dropColumn R c (columnOf R g c)).getD r Option.none
      = some { ((columnOf R g c).filterMap id).getD
                  (r - (R - ((columnOf R g c).filterMap id).length)) default
               with row := r, col := c } := by
  have hk := kept_length_le R c g
  unfold dropColumn
  rw [List.getD_append_right _ _ _ _ (by simpa using hlow)]
  rw [List.length_replicate]
  rw [placeSurvivors_getD c _ _ _ (by omega)]
  refine congrArg some ?_
  have : R - ((columnOf R g c).filterMap id).length
      + (r - (R - ((columnOf R g c).filterMap id).length)) = r := by omega
  rw [this]

end Food

namespace Food

lemma filterMap_id_replicate_none (n : Nat) :
    (List.replicate n (Option.none : Option GridCell)).filterMap id = [] := by
  induction n with
  | zero => rfl
  | succ m ih => simp [List.replicate_succ, ih]

lemma dropSymbols_apply (R C : Nat) (g : Grid) (r c : Nat) (hr : r < R) (hc : c < C) :
    dropSymbols R C g r c = (dropColumn R c (columnOf R g c)).getD r Option.none := by
  unfold dropSymbols
  rw [if_pos ⟨hr, hc⟩]

/-- Claim C7: column compaction (`dropSymbols`) is correct and
column-independent.  For every grid and every column `c < C`: the rows above
the survivors are empty; the bottommost rows hold exactly one cell each,
whose row/col fields match its matrix position; the surviving cells keep
their original top-to-bottom order and content; and the resulting column is
a function of the original column alone (no cross-column movement). -/
theorem dropSymbols_correct (R C : Nat) (g : Grid) (c : Nat) (hc : c < C) :
    (∀ r, r < R - ((columnOf R g c).filterMap id).length →
        dropSymbols R C g r c = Option.none) ∧
    (∀ r, R - ((columnOf R g c).filterMap id).length ≤ r → r < R →
        ∃ cell, dropSymbols R C g r c = some cell ∧ cell.row = r ∧ cell.col = c) ∧
    ((columnOf R (dropSymbols R C g) c).filterMap id).map cellContent
      = ((columnOf R g c).filterMap id).map cellContent ∧
    (∀ g' : Grid, columnOf R g' c = columnOf R g c →
        columnOf R (dropSymbols R C g') c = columnOf R (dropSymbols R C g) c) := by
  have hk := kept_length_le R c g
  refine ⟨?_, ?_, ?_, ?_⟩
  · intro r hr
    rw [dropSymbols_apply R C g r c (by omega) hc]
    exact dropColumn_getD_low R c g r hr
  · intro r hlow hr
    rw [dropSymbols_apply R C g r c hr hc]
    rw [dropColumn_getD_high R c g r hlow hr]
    exact ⟨_, rfl, rfl, rfl⟩
  · rw [columnOf_dropSymbols R C g c hc]
    unfold dropColumn
    rw [List.filterMap_append, filterMap_id_replicate_none, List.nil_append]
    exact placeSurvivors_content c _ _
  · intro g' hcol
    rw [columnOf_dropSymbols R C g' c hc, columnOf_dropSymbols R C g c hc, hcol]

/-- A small concrete grid for the compaction witness: column 0 holds a
burger cell above a hole above a pizza cell. -/
def exampleDropGrid : Grid := fun r c =>
  if r = 0 ∧ c = 0 then some ⟨burger, 0, 0, "a"⟩
  else if r = 2 ∧ c = 0 then some ⟨pizza, 2, 0, "b"⟩
  else if r = 1 ∧ c = 1 then some ⟨taco, 1, 1, "d"⟩
  else Option.none

/-- Witness for C7 at a concrete 3×2 grid and column 0. -/
theorem dropSymbols_correct_witness :
    0 < 2 ∧
    ((∀ r, r < 3 - ((columnOf 3 exampleDropGrid 0).filterMap id).length →
        dropSymbols 3 2 exampleDropGrid r 0 = Option.none) ∧
    (∀ r, 3 - ((columnOf 3 exampleDropGrid 0).filterMap id).length ≤ r → r < 3 →
        ∃ cell, dropSymbols 3 2 exampleDropGrid r 0 = some cell ∧ cell.row = r ∧ cell.col = 0) ∧
    ((columnOf 3 (dropSymbols 3 2 exampleDropGrid) 0).filterMap id).map cellContent
      = ((columnOf 3 exampleDropGrid 0).filterMap id).map cellContent ∧
    (∀ g' : Grid, columnOf 3 g' 0 = columnOf 3 exampleDropGrid 0 →
        columnOf 3 (dropSymbols 3 2 g') 0 = columnOf 3 (dropSymbols 3 2 exampleDropGrid) 0)) :=
  ⟨by decide, dropSymbols_correct 3 2 exampleDropGrid 0 (by decide)⟩

end Food

namespace Food

/-- Indicator of a scatter cell, on a cell proper. -/
def cellInd (cell : GridCell) : Nat :=
  if cell.symbol.isScatter then 1 else 0

/-- Row/col fields of every settled in-range cell agree with its matrix
position — the grid invariant `removeWinningSymbols` relies on when it nulls
`grid[cell.row][cell.col]`. -/
def WellPositioned (R C : Nat) (g : Grid) : Prop :=
  ∀ r c cell, r < R → c < C → g r c = some cell → cell.row = r ∧ cell.col = c

lemma scatterCount_congr (R C : Nat) (g g' : Grid)
    (h : ∀ r c, r < R → c < C → scatterInd (g' r c) = scatterInd (g r c)) :
    scatterCount R C g' = scatterCount R C g := by
  unfold scatterCount
  refine Finset.sum_congr rfl (fun r hr => Finset.sum_congr rfl (fun c hc => ?_))
  rw [Finset.mem_range] at hr hc
  exact h r c hr hc

lemma pickLoop_mem : ∀ (l : List Symbol) (roll accumulated : ℤ) (s : Symbol),
    pickLoop l roll accumulated = some s → s ∈ l := by
  intro l
  induction l with
  | nil => intro roll accumulated s h; simp [pickLoop] at h
  | cons x rest ih =>
    intro roll accumulated s h
    rw [pickLoop] at h
    by_cases hcmp : roll < accumulated + x.weight
    · rw [if_pos hcmp] at h
      cases h
      exact List.mem_cons_self x rest
    · rw [if_neg hcmp] at h
      exact List.mem_cons_of_mem x (ih _ _ s h)

lemma foodsOf_isScatter_false {symbols : List Symbol} {s : Symbol}
    (h : s ∈ foodsOf symbols) : s.isScatter = false := by
  unfold foodsOf at h
  rcases List.mem_filter.mp h with ⟨-, hflag⟩
  simpa using hflag

lemma getLastD_mem_or_default {α : Type _} (l : List α) (d : α) :
    l.getLastD d ∈ l ∨ l.getLastD d = d := by
  cases l with
  | nil => right; rfl
  | cons x rest =>
    left
    rw [List.getLastD_eq_getLast?, List.getLast?_eq_getLast (x :: rest) (by simp)]
    exact List.getLast_mem _

/-- The scatter-free sampler never returns a scatter: the candidate walk only
yields a filtered candidate, and the fall-through fallback (the last food
symbol, or the default on an empty catalog) is scatter-free too. -/
lemma getRandomFoodSymbol_isScatter_false (symbols : List Symbol) (roll : ℤ) :
    (getRandomFoodSymbol (foodsOf symbols) roll).isScatter = false := by
  unfold getRandomFoodSymbol
  cases hpick : pickLoop (foodsOf symbols) roll 0 with
  | some s => exact foodsOf_isScatter_false (pickLoop_mem _ _ _ _ hpick)
  | none =>
    rcases getLastD_mem_or_default (foodsOf symbols) default with hmem | hdef
    · exact foodsOf_isScatter_false hmem
    · rw [hdef]
      rfl

end Food

namespace Food

lemma scanCells_mem {R C : Nat} {g : Grid} {cell : GridCell}
    (h : cell ∈ scanCells R C g) :
    cell.symbol.isScatter = false ∧ ∃ r c, r < R ∧ c < C ∧ g r c = some cell := by
  unfold scanCells at h
  rcases List.mem_flatMap.mp h with ⟨r, hr, hcell⟩
  rcases List.mem_filterMap.mp hcell with ⟨c, hc, heq⟩
  rw [List.mem_range] at hr
  rw [List.mem_range] at hc
  rcases hcase : g r c with - | cell'
  · rw [hcase] at heq
    simp at heq
  · rw [hcase] at heq
    dsimp only at heq
    by_cases hcond : cell'.symbol.isScatter = false ∧ cell'.symbol.id ≠ ""
    · rw [if_pos hcond] at heq
      cases heq
      exact ⟨hcond.1, r, c, hr, hc, hcase⟩
    · rw [if_neg hcond] at heq
      simp at heq

lemma addToGroups_cells_subset {P : GridCell → Prop} :
    ∀ (groups : List (String × List GridCell)) (cell : GridCell),
      (∀ p ∈ groups, ∀ x ∈ p.2, P x) → P cell →
      ∀ p ∈ addToGroups groups cell, ∀ x ∈ p.2, P x := by
  intro groups
  induction groups with
  | nil =>
    intro cell _ hcell p hp x hx
    rw [addToGroups] at hp
    rcases List.mem_singleton.mp hp with rfl
    rcases List.mem_singleton.mp hx with rfl
    exact hcell
  | cons q rest ih =>
    intro cell hall hcell p hp x hx
    rcases q with ⟨k, cs⟩
    rw [addToGroups] at hp
    by_cases hk : k = cell.symbol.id
    · rw [if_pos hk] at hp
      rcases List.mem_cons.mp hp with rfl | htail
      · rcases List.mem_append.mp hx with hx' | hx'
        · exact hall (k, cs) (List.mem_cons_self _ _) x hx'
        · rcases List.mem_singleton.mp hx' with rfl
          exact hcell
      · exact hall p (List.mem_cons_of_mem _ htail) x hx
    · rw [if_neg hk] at hp
      rcases List.mem_cons.mp hp with rfl | htail
      · exact hall (k, cs) (List.mem_cons_self _ _) x hx
      · exact ih cell (fun p' hp' => hall p' (List.mem_cons_of_mem _ hp')) hcell p htail x hx

lemma groupCells_cells_subset {P : GridCell → Prop} (cells : List GridCell)
    (hcells : ∀ cell ∈ cells, P cell) :
    ∀ p ∈ groupCells cells, ∀ x ∈ p.2, P x := by
  unfold groupCells
  suffices hgen : ∀ (l : List GridCell) (acc : List (String × List GridCell)),
      (∀ p ∈ acc, ∀ x ∈ p.2, P x) → (∀ cell ∈ l, P cell) →
      ∀ p ∈ l.foldl addToGroups acc, ∀ x ∈ p.2, P x by
    exact hgen cells [] (by intro p hp; simp at hp) hcells
  intro l
  induction l with
  | nil => intro acc hacc _ p hp x hx; exact hacc p hp x hx
  | cons cell rest ih =>
    intro acc hacc hl p hp x hx
    rw [List.foldl_cons] at hp
    exact ih (addToGroups acc cell)
      (addToGroups_cells_subset acc cell hacc (hl cell (List.mem_cons_self _ _)))
      (fun y hy => hl y (List.mem_cons_of_mem _ hy)) p hp x hx

/-- Every cell recorded in a win of `findWinningCombinations` was scanned off
the grid: it is a non-scatter cell sitting at some in-range position. -/
lemma findWins_cells_scanned {cfg : GameConfig} {foods : List Symbol} {g : Grid}
    {w : WinInfo} (hw : w ∈ findWinningCombinations cfg foods g) :
    ∀ cell ∈ w.cells,
      cell.symbol.isScatter = false ∧
        ∃ r c, r < cfg.rows ∧ c < cfg.columns ∧ g r c = some cell := by
  intro cell hcell
  unfold findWinningCombinations at hw
  rcases List.mem_filterMap.mp hw with ⟨p, hp, heq⟩
  have hsub := groupCells_cells_subset (P := fun x =>
      x.symbol.isScatter = false ∧ ∃ r c, r < cfg.rows ∧ c < cfg.columns ∧ g r c = some x)
    (scanCells cfg.rows cfg.columns g) (fun x hx => scanCells_mem hx) p hp
  by_cases hlen : cfg.minWinSymbols ≤ p.2.length
  · rw [if_pos hlen] at heq
    rcases hfind : foods.find? (fun s => s.id = p.1) with - | symbolDef
    · rw [hfind] at heq
      simp at heq
    · rw [hfind] at heq
      cases heq
      exact hsub cell hcell
  · rw [if_neg hlen] at heq
    simp at heq

end Food

namespace Food

/-- Generalisation of the sampler's scatter-freeness to any scatter-free
candidate list. -/
lemma getRandomFoodSymbol_isScatter_false' (foods : List Symbol)
    (hfoods : ∀ s ∈ foods, s.isScatter = false) (roll : ℤ) :
    (getRandomFoodSymbol foods roll).isScatter = false := by
  unfold getRandomFoodSymbol
  cases hpick : pickLoop foods roll 0 with
  | some s => exact hfoods s (pickLoop_mem _ _ _ _ hpick)
  | none =>
    rcases getLastD_mem_or_default foods default with hmem | hdef
    · exact hfoods _ hmem
    · rw [hdef]
      rfl

/-- The winning cells of a list of wins are all scanned off the grid:
non-scatter cells at in-range positions. -/
def CellsScanned (cfg : GameConfig) (g : Grid) (wins : List WinInfo) : Prop :=
  ∀ w ∈ wins, ∀ cell ∈ w.cells,
    cell.symbol.isScatter = false ∧
      ∃ r c, r < cfg.rows ∧ c < cfg.columns ∧ g r c = some cell

lemma findWins_cellsScanned (cfg : GameConfig) (foods : List Symbol) (g : Grid) :
    CellsScanned cfg g (findWinningCombinations cfg foods g) :=
  fun _ hw => findWins_cells_scanned hw

/-- Attaching payouts (`win.payout = payout * bet`) does not change the cells. -/
lemma paidWins_cellsScanned {cfg : GameConfig} {g : Grid} {wins : List WinInfo}
    (h : CellsScanned cfg g wins) (bet : ℤ) :
    CellsScanned cfg g
      (wins.map (fun w => { w with payout := calculatePayout w.symbol w.count * bet })) := by
  intro w' hw' cell hcell
  rcases List.mem_map.mp hw' with ⟨w, hw, rfl⟩
  exact h w hw cell hcell

/-- Removal only nulls positions that held a non-scatter cell: the winning
cell's row/col fields address, by well-positionedness, the very cell that was
scanned there. -/
lemma removeWinningSymbols_scatterInd {cfg : GameConfig} {g : Grid} {wins : List WinInfo}
    (hwp : WellPositioned cfg.rows cfg.columns g) (hscan : CellsScanned cfg g wins)
    (r c : Nat) :
    scatterInd (removeWinningSymbols cfg wins g r c) = scatterInd (g r c) := by
  unfold removeWinningSymbols
  by_cases hcond : r < cfg.rows ∧ c < cfg.columns ∧
      wins.any (fun w => w.cells.any (fun cell => cell.row = r ∧ cell.col = c))
  · rw [if_pos hcond]
    rcases hcond with ⟨hr, hc, hany⟩
    rcases List.any_eq_true.mp hany with ⟨w, hw, hanyc⟩
    rcases List.any_eq_true.mp hanyc with ⟨wc, hwc, hpos⟩
    rcases of_decide_eq_true hpos with ⟨hrow, hcol⟩
    rcases hscan w hw wc hwc with ⟨hscatter, r', c', hr', hc', hgc⟩
    rcases hwp r' c' wc hr' hc' hgc with ⟨hrow', hcol'⟩
    have : g r c = some wc := by
      rw [← hrow, ← hcol, hrow', hcol']
      exact hgc
    rw [this]
    simp [scatterInd, hscatter]
  · rw [if_neg hcond]

lemma wellPositioned_remove {cfg : GameConfig} {g : Grid} {wins : List WinInfo}
    (hwp : WellPositioned cfg.rows cfg.columns g) :
    WellPositioned cfg.rows cfg.columns (removeWinningSymbols cfg wins g) := by
  intro r c cell hr hc hcell
  unfold removeWinningSymbols at hcell
  by_cases hcond : r < cfg.rows ∧ c < cfg.columns ∧
      wins.any (fun w => w.cells.any (fun cell => cell.row = r ∧ cell.col = c))
  · rw [if_pos hcond] at hcell
    cases hcell
  · rw [if_neg hcond] at hcell
    exact hwp r c cell hr hc hcell

/-- Compaction re-labels every settled cell with its matrix position, so a
dropped grid is well-positioned whatever the input was. -/
lemma wellPositioned_drop (R C : Nat) (g : Grid) :
    WellPositioned R C (dropSymbols R C g) := by
  intro r c cell hr hc hcell
  rw [dropSymbols_apply R C g r c hr hc] at hcell
  by_cases hlow : r < R - ((columnOf R g c).filterMap id).length
  · rw [dropColumn_getD_low R c g r hlow] at hcell
    cases hcell
  · rw [dropColumn_getD_high R c g r (by omega) hr] at hcell
    cases hcell
    exact ⟨rfl, rfl⟩

lemma wellPositioned_fill {cfg : GameConfig} {foods : List Symbol}
    {rolls : Nat → Nat → ℤ} {ids : Nat → Nat → String} {g : Grid}
    (hwp : WellPositioned cfg.rows cfg.columns g) :
    WellPositioned cfg.rows cfg.columns (fillEmptySpaces cfg foods rolls ids g) := by
  intro r c cell hr hc hcell
  unfold fillEmptySpaces at hcell
  rw [if_pos ⟨hr, hc⟩] at hcell
  rcases hcase : g r c with - | old
  · rw [hcase] at hcell
    cases hcell
    exact ⟨rfl, rfl⟩
  · rw [hcase] at hcell
    dsimp only at hcell
    cases hcell
    exact hwp r c _ hr hc hcase

end Food

namespace Food

lemma sum_range_getD_scatterInd (l : List (Option GridCell)) :
    ∑ r ∈ Finset.range l.length, scatterInd (l.getD r Option.none) = (l.map scatterInd).sum := by
  induction l with
  | nil => rfl
  | cons x xs ih =>
    rw [List.length_cons, Finset.sum_range_succ']
    simp only [List.getD_cons_succ, List.getD_cons_zero]
    rw [ih, List.map_cons, List.sum_cons]
    omega

lemma placeSurvivors_scatter_sum (c : Nat) :
    ∀ (startRow : Nat) (l : List GridCell),
      ((placeSurvivors c startRow l).map scatterInd).sum = (l.map cellInd).sum := by
  intro startRow l
  induction l generalizing startRow with
  | nil => rfl
  | cons cell rest ih =>
    rw [placeSurvivors, List.map_cons, List.sum_cons, List.map_cons, List.sum_cons, ih]
    rfl

lemma filterMap_scatter_sum (l : List (Option GridCell)) :
    (l.map scatterInd).sum = ((l.filterMap id).map cellInd).sum := by
  induction l with
  | nil => rfl
  | cons x xs ih =>
    cases x with
    | none => simpa [scatterInd] using ih
    | some cell =>
      have hfm : List.filterMap id (some cell :: xs) = cell :: List.filterMap id xs := by
        simp
      rw [List.map_cons, List.sum_cons, hfm, List.map_cons, List.sum_cons, ih]
      rfl

lemma dropColumn_scatter_sum (R c : Nat) (g : Grid) :
    ((dropColumn R c (columnOf R g c)).map scatterInd).sum
      = ((columnOf R g c).map scatterInd).sum := by
  unfold dropColumn
  rw [List.map_append, List.sum_append, placeSurvivors_scatter_sum,
    ← filterMap_scatter_sum]
  have hrep : ((List.replicate (R - ((columnOf R g c).filterMap id).length)
      (Option.none : Option GridCell)).map scatterInd).sum = 0 := by
    rw [List.map_replicate]
    simp [scatterInd]
  omega

lemma columnOf_getD (R : Nat) (g : Grid) (c r : Nat) (hr : r < R) :
    (columnOf R g c).getD r Option.none = g r c := by
  unfold columnOf
  rw [List.getD_eq_getElem?_getD, List.getElem?_map, List.getElem?_range hr]
  rfl

lemma scatterCount_dropSymbols (R C : Nat) (g : Grid) :
    scatterCount R C (dropSymbols R C g) = scatterCount R C g := by
  unfold scatterCount
  rw [Finset.sum_comm]
  rw [Finset.sum_comm (s := Finset.range R) (t := Finset.range C) (f := fun r c => scatterInd (g r c))]
  refine Finset.sum_congr rfl (fun c hc => ?_)
  rw [Finset.mem_range] at hc
  have hL : (dropColumn R c (columnOf R g c)).length = R := dropColumn_length R c g
  have hcol : (columnOf R g c).length = R := by simp [columnOf]
  calc ∑ r ∈ Finset.range R, scatterInd (dropSymbols R C g r c)
      = ∑ r ∈ Finset.range R, scatterInd ((dropColumn R c (columnOf R g c)).getD r Option.none) := by
        refine Finset.sum_congr rfl (fun r hr => ?_)
        rw [Finset.mem_range] at hr
        rw [dropSymbols_apply R C g r c hr hc]
    _ = ((dropColumn R c (columnOf R g c)).map scatterInd).sum := by
        rw [← sum_range_getD_scatterInd, hL]
    _ = ((columnOf R g c).map scatterInd).sum := dropColumn_scatter_sum R c g
    _ = ∑ r ∈ Finset.range R, scatterInd ((columnOf R g c).getD r Option.none) := by
        rw [← sum_range_getD_scatterInd (columnOf R g c), hcol]
    _ = ∑ r ∈ Finset.range R, scatterInd (g r c) := by
        refine Finset.sum_congr rfl (fun r hr => ?_)
        rw [Finset.mem_range] at hr
        rw [columnOf_getD R g c r hr]

lemma scatterCount_remove {cfg : GameConfig} {g : Grid} {wins : List WinInfo}
    (hwp : WellPositioned cfg.rows cfg.columns g) (hscan : CellsScanned cfg g wins) :
    scatterCount cfg.rows cfg.columns (removeWinningSymbols cfg wins g)
      = scatterCount cfg.rows cfg.columns g :=
  scatterCount_congr _ _ _ _
    (fun r c _ _ => removeWinningSymbols_scatterInd hwp hscan r c)

lemma scatterCount_fill (cfg : GameConfig) (symbols : List Symbol)
    (rolls : Nat → Nat → ℤ) (ids : Nat → Nat → String) (g : Grid) :
    scatterCount cfg.rows cfg.columns (fillEmptySpaces cfg (foodsOf symbols) rolls ids g)
      = scatterCount cfg.rows cfg.columns g := by
  refine scatterCount_congr _ _ _ _ (fun r c hr hc => ?_)
  unfold fillEmptySpaces
  rw [if_pos ⟨hr, hc⟩]
  rcases hcase : g r c with - | old
  · dsimp only
    simp [scatterInd, getRandomFoodSymbol_isScatter_false]
  · rfl

end Food

namespace Food

/-- The cascade loop of V1 never changes the scatter tally: wins never
contain scatters, so removal only nulls non-scatter cells, compaction
permutes a column, and refills sample scatter-free. -/
lemma cascadeLoop_scatter (cfg : GameConfig) (symbols : List Symbol) (bet : ℤ)
    (refillRolls : Nat → Nat → Nat → ℤ) (refillIds : Nat → Nat → Nat → String) :
    ∀ (fuel : Nat) (g : Grid) (orders : List Order) (tw : ℤ) (aw : List WinInfo)
      (steps : List CascadeStep) (iter : Nat) (res : CascadeResult),
      WellPositioned cfg.rows cfg.columns g →
      cascadeLoop cfg (foodsOf symbols) bet refillRolls refillIds fuel g orders tw aw steps iter
        = some res →
      scatterCount cfg.rows cfg.columns res.grid = scatterCount cfg.rows cfg.columns g := by
  intro fuel
  induction fuel with
  | zero =>
    intro g orders tw aw steps iter res hwp h
    simp [cascadeLoop] at h
  | succ n ih =>
    intro g orders tw aw steps iter res hwp h
    simp only [cascadeLoop] at h
    by_cases hempty : (findWinningCombinations cfg (foodsOf symbols) g).isEmpty
    · rw [if_pos hempty] at h
      cases h
      rfl
    · rw [if_neg hempty] at h
      simp only [cloneGrid] at h
      have hscan := paidWins_cellsScanned (findWins_cellsScanned cfg (foodsOf symbols) g) bet
      have hres := ih _ _ _ _ _ _ _
        (wellPositioned_fill (wellPositioned_drop cfg.rows cfg.columns _)) h
      rw [hres, scatterCount_fill, scatterCount_dropSymbols, scatterCount_remove hwp hscan]

/-- The trigger outcome of `checkFreeSpinsTrigger` on a state outside
free-spin mode is exactly the threshold comparison on the state's grid. -/
lemma checkFreeSpinsTrigger_isFreeSpins (cfg : GameConfig) (foods : List Symbol)
    (rand : FsOrderRand) (s : GameState) (hfs : s.isFreeSpins = false) :
    (checkFreeSpinsTrigger cfg foods rand s).isFreeSpins = true
      ↔ scatterThreshold cfg s.anteMode ≤ (scatterCount cfg.rows cfg.columns s.grid : ℤ) := by
  unfold checkFreeSpinsTrigger
  by_cases hcond : scatterThreshold cfg s.anteMode ≤ (scatterCount cfg.rows cfg.columns s.grid : ℤ)
  · rw [if_pos ⟨hcond, hfs⟩]
    simpa [triggerFreeSpins] using hcond
  · rw [if_neg (fun hc => hcond hc.1)]
    rw [hfs]
    simp [hcond]

/-- Claim C1: for every spin that starts outside free-spin mode, the natural
free-spin trigger decision observed right after `checkFreeSpinsTrigger` is
exactly `scatterCount(initial grid) ≥ ante-adjusted threshold`, even though
the source runs the check on the post-cascade grid: the cascade loop
preserves the scatter tally, so the post-cascade count equals the count of
the freshly generated initial grid `g0` before any cascade consumed it.
The state passed to the check is the one `spin()` builds after
`processCascades`: the prepared state with the cascaded grid, orders and
steps installed. -/
theorem freeSpins_trigger_iff_initial_scatters (cfg : GameConfig) (symbols : List Symbol)
    (rand : SpinRand) (fuel : Nat) (s : GameState) (g0 : Grid) (res : CascadeResult)
    (hfs : s.isFreeSpins = false)
    (hwp : WellPositioned cfg.rows cfg.columns g0)
    (hrun : processCascades cfg (foodsOf symbols) s.currentBet rand.refillRolls rand.refillIds
        fuel g0 s.orders = some res) :
    (checkFreeSpinsTrigger cfg (foodsOf symbols) rand.fsOrders
        { s with grid := res.grid, orders := res.orders, cascadeSteps := res.steps }).isFreeSpins
        = true
      ↔ scatterThreshold cfg s.anteMode ≤ (scatterCount cfg.rows cfg.columns g0 : ℤ) := by
  have hcnt : scatterCount cfg.rows cfg.columns res.grid = scatterCount cfg.rows cfg.columns g0 :=
    cascadeLoop_scatter cfg symbols s.currentBet rand.refillRolls rand.refillIds
      fuel g0 s.orders 0 [] [] 0 res hwp hrun
  rw [checkFreeSpinsTrigger_isFreeSpins cfg (foodsOf symbols) rand.fsOrders
    { s with grid := res.grid, orders := res.orders, cascadeSteps := res.steps } hfs]
  show scatterThreshold cfg s.anteMode ≤ (scatterCount cfg.rows cfg.columns res.grid : ℤ) ↔ _
  rw [hcnt]

end Food

namespace Food

/-- Grid builder for concrete runs: an `R × C` grid whose cell at `(r, c)`
holds symbol `f r c`, correctly positioned. -/
def mkGrid (R C : Nat) (f : Nat → Nat → Symbol) (idf : Nat → Nat → String) : Grid :=
  fun r c => if r < R ∧ c < C then some ⟨f r c, r, c, idf r c⟩ else Option.none

lemma wellPositioned_mkGrid (R C : Nat) (f : Nat → Nat → Symbol) (idf : Nat → Nat → String) :
    WellPositioned R C (mkGrid R C f idf) := by
  intro r c cell hr hc hcell
  unfold mkGrid at hcell
  rw [if_pos ⟨hr, hc⟩] at hcell
  cases hcell
  exact ⟨rfl, rfl⟩

/-- A pre-spin engine state for concrete runs (balance preset as in
`initializeState`, bet 10, ante `none`, idle). -/
def exampleState : GameState where
  grid := fun _ _ => Option.none
  balance := 1000000
  currentBet := 10
  totalWin := 0
  isSpinning := false
  isFreeSpins := false
  freeSpinsRemaining := 0
  orders := []
  anteMode := AnteMode.none
  cascadeSteps := []

def exampleOrderRand : OrderRand := ⟨0, 0, 0, 0⟩

def exampleFsRand : FsOrderRand := ⟨0, fun _ => 0, fun _ => 0, fun _ => 0⟩

/-- All-zero random oracles for concrete runs. -/
def exampleSpinRand : SpinRand where
  order := exampleOrderRand
  gridRolls := fun _ _ => 0
  gridIds := fun _ _ => ("c")
  refillRolls := fun _ _ _ => 0
  refillIds := fun _ _ _ => ("c")
  fsOrders := exampleFsRand

/-- A 5×6 initial grid with exactly three scatters (top-left) and the foods
cycling so that no symbol reaches the minimum win size of 8: `burger`,
`pizza` and `taco` occur 7 times each, `sushi` 6 times. -/
def exampleTriggerSymbol (r c : Nat) : Symbol :=
  if r = 0 ∧ c < 3 then scatterSymbol
  else [burger, pizza, sushi, taco].getD ((r * 6 + c) % 4) default

def exampleTriggerGrid : Grid := mkGrid 5 6 exampleTriggerSymbol (fun _ _ => ("g"))

/-- The cascade result of the win-free `exampleTriggerGrid`: the loop exits
on the first scan with everything unchanged. -/
def exampleTriggerResult : CascadeResult := ⟨exampleTriggerGrid, [], 0, [], [], 0⟩

/-- Witness for C1: a concrete spin with three scatters on the initial grid
and no wins triggers free-spin mode, and the trigger equivalence holds. -/
theorem freeSpins_trigger_iff_initial_scatters_witness :
    exampleState.isFreeSpins = false ∧
    WellPositioned exampleConfig.rows exampleConfig.columns exampleTriggerGrid ∧
    processCascades exampleConfig (foodsOf exampleSymbols) exampleState.currentBet
        exampleSpinRand.refillRolls exampleSpinRand.refillIds 1 exampleTriggerGrid
        exampleState.orders = some exampleTriggerResult ∧
    ((checkFreeSpinsTrigger exampleConfig (foodsOf exampleSymbols) exampleSpinRand.fsOrders
        { exampleState with grid := exampleTriggerResult.grid,
                            orders := exampleTriggerResult.orders,
                            cascadeSteps := exampleTriggerResult.steps }).isFreeSpins = true
      ↔ scatterThreshold exampleConfig exampleState.anteMode
          ≤ (scatterCount exampleConfig.rows exampleConfig.columns exampleTriggerGrid : ℤ)) :=
  ⟨rfl, wellPositioned_mkGrid 5 6 exampleTriggerSymbol (fun _ _ => ("g")), rfl,
    freeSpins_trigger_iff_initial_scatters exampleConfig exampleSymbols exampleSpinRand 1
      exampleState exampleTriggerGrid exampleTriggerResult rfl
      (wellPositioned_mkGrid 5 6 exampleTriggerSymbol (fun _ _ => ("g")))
      rfl⟩

end Food

namespace Food

/-- The adversarial grid for the cascade loop: all 30 cells are `burger`,
with the ids the constant refill-id oracle produces. -/
def exampleLoopGrid : Grid := mkGrid 5 6 (fun _ _ => burger) (fun _ _ => ("c"))

/-- One full cascade iteration maps the all-burger grid back to itself when
every refill roll is 0 (the sampler then returns the first food, `burger`):
the 30-cell burger cluster is removed, the empty columns compact to empty,
and the refill regenerates the same grid. -/
lemma exampleLoop_step (iter : Nat) :
    cloneGrid (fillEmptySpaces exampleConfig exampleFoods (exampleSpinRand.refillRolls iter)
      (exampleSpinRand.refillIds iter)
      (cloneGrid (dropSymbols exampleConfig.rows exampleConfig.columns
        (cloneGrid (removeWinningSymbols exampleConfig
          ((findWinningCombinations exampleConfig exampleFoods exampleLoopGrid).map
            (fun w => { w with payout := calculatePayout w.symbol w.count * 10 }))
          exampleLoopGrid)))))
      = exampleLoopGrid := by
  have hall : ∀ r' ∈ List.range 5, ∀ c' ∈ List.range 6,
      cloneGrid (fillEmptySpaces exampleConfig exampleFoods (fun _ _ => (0 : ℤ))
        (fun _ _ => ("c"))
        (cloneGrid (dropSymbols exampleConfig.rows exampleConfig.columns
          (cloneGrid (removeWinningSymbols exampleConfig
            ((findWinningCombinations exampleConfig exampleFoods exampleLoopGrid).map
              (fun w => { w with payout := calculatePayout w.symbol w.count * 10 }))
            exampleLoopGrid))))) r' c' = exampleLoopGrid r' c' := by decide
  funext r c
  by_cases hin : r < 5 ∧ c < 6
  · exact hall r (List.mem_range.mpr hin.1) c (List.mem_range.mpr hin.2)
  · show fillEmptySpaces _ _ _ _ _ r c = exampleLoopGrid r c
    unfold fillEmptySpaces
    rw [if_neg (show ¬(r < exampleConfig.rows ∧ c < exampleConfig.columns) from hin)]
    show dropSymbols _ _ _ r c = _
    unfold dropSymbols
    rw [if_neg (show ¬(r < exampleConfig.rows ∧ c < exampleConfig.columns) from hin)]
    show removeWinningSymbols _ _ _ r c = _
    unfold removeWinningSymbols
    rw [if_neg (show ¬(r < exampleConfig.rows ∧ c < exampleConfig.columns ∧ _) from
      fun h => hin ⟨h.1, h.2.1⟩)]

/-- On the all-burger grid with constant-zero refill draws, the cascade loop
never reaches a win-free scan: every fuel bound is exhausted. -/
lemma exampleLoop_none :
    ∀ (fuel : Nat) (orders : List Order) (tw : ℤ) (aw : List WinInfo)
      (steps : List CascadeStep) (iter : Nat),
      cascadeLoop exampleConfig exampleFoods 10 exampleSpinRand.refillRolls
        exampleSpinRand.refillIds fuel exampleLoopGrid orders tw aw steps iter
        = Option.none := by
  intro fuel
  induction fuel with
  | zero => intro orders tw aw steps iter; rfl
  | succ n ih =>
    intro orders tw aw steps iter
    simp only [cascadeLoop]
    rw [if_neg (show ¬(findWinningCombinations exampleConfig exampleFoods
      exampleLoopGrid).isEmpty = true by decide)]
    rw [exampleLoop_step iter]
    exact ih _ _ _ _ _

/-- Claim C2 counterexample: `processCascades` has no maximum-iteration cap
and no cap-exceeded error.  On the concrete all-burger grid with
constant-zero refill draws the loop is still running after 25 iterations
(it has not terminated, and no error condition of any kind was produced),
even though the grid does have wins on every scan. -/
theorem processCascades_cap_counterexample :
    processCascades exampleConfig exampleFoods 10 exampleSpinRand.refillRolls
        exampleSpinRand.refillIds 25 exampleLoopGrid [] = Option.none ∧
    (findWinningCombinations exampleConfig exampleFoods exampleLoopGrid).isEmpty = false := by
  exact ⟨exampleLoop_none 25 [] 0 [] [] 0, by decide⟩

/-- Claim C2 (amended): the cascade loop of `processCascades` imposes no
maximum-iteration cap and defines no cap-exceeded error condition.  It
terminates exactly when a scan finds zero wins — immediately, with zero
cascades, zero accumulated wins and zero stored steps, on any win-free grid —
and there are concrete inputs (the all-burger grid with constant-zero refill
draws) on which it never reaches a win-free scan, for any number of
iterations. -/
theorem processCascades_no_iteration_cap (cfg : GameConfig) (foods : List Symbol) (bet : ℤ)
    (rolls : Nat → Nat → Nat → ℤ) (ids : Nat → Nat → Nat → String)
    (g : Grid) (orders : List Order) (fuel : Nat)
    (hnowins : (findWinningCombinations cfg foods g).isEmpty = true) :
    processCascades cfg foods bet rolls ids (fuel + 1) g orders
        = some ⟨g, orders, 0, [], [], 0⟩ ∧
    (∀ n : Nat, processCascades exampleConfig exampleFoods 10 exampleSpinRand.refillRolls
        exampleSpinRand.refillIds n exampleLoopGrid [] = Option.none) := by
  constructor
  · unfold processCascades
    simp only [cascadeLoop]
    rw [if_pos hnowins]
  · intro n
    exact exampleLoop_none n [] 0 [] [] 0

/-- Witness for the amended C2 at the win-free `exampleTriggerGrid`. -/
theorem processCascades_no_iteration_cap_witness :
    (findWinningCombinations exampleConfig exampleFoods exampleTriggerGrid).isEmpty = true ∧
    (processCascades exampleConfig exampleFoods 10 exampleSpinRand.refillRolls
        exampleSpinRand.refillIds 8 exampleTriggerGrid []
        = some ⟨exampleTriggerGrid, [], 0, [], [], 0⟩ ∧
      (∀ n : Nat, processCascades exampleConfig exampleFoods 10 exampleSpinRand.refillRolls
          exampleSpinRand.refillIds n exampleLoopGrid [] = Option.none)) :=
  ⟨by decide, processCascades_no_iteration_cap exampleConfig exampleFoods 10
    exampleSpinRand.refillRolls exampleSpinRand.refillIds exampleTriggerGrid [] 7 (by decide)⟩

end Food

namespace Food

/-- Claim C4 (code bug in V2 / `part_000`): at a fall-through draw — the
floating-point edge case the spec describes; in the exact-arithmetic
embedding any roll at or beyond the total weight reaches the fallback —
V2's `getRandomSymbol` returns the FIRST candidate
(`return availableSymbols[0]`), while the claim requires the last candidate
and never the first.  V1's `getRandomFoodSymbol`, whose own comment
documents the first-candidate fallback as the prior bug, returns the LAST
candidate at the same draw.  Candidates: `[burger, pizza, sushi, taco]`,
total weight 36, draw 100. -/
theorem sampler_fallback_first_not_last :
    getRandomSymbolV2 exampleSymbols true 100 = burger ∧
    getRandomFoodSymbol exampleFoods 100 = taco ∧
    burger ≠ taco := by decide

/-- Claim C5 (code bug in V1 / `part_000`): V1's `generateInitialGrid`
samples every cell with the scatter-free `getRandomFoodSymbol`, so for every
catalog and every roll oracle the freshly generated initial grid contains
zero scatters — scatter symbols can never land even on the initial drop,
making the natural free-spin trigger unreachable — although V1 also defines
`getRandomSymbolWithScatter`, documented "for the trigger check", and never
calls it.  V2's `generateInitialGrid` samples scatter-inclusive and does
place a scatter (draw 37 falls in the scatter's weight window (36, 38]). -/
theorem initialGrid_never_scatter_V1 :
    (∀ (cfg : GameConfig) (symbols : List Symbol)
        (rolls : Nat → Nat → ℤ) (ids : Nat → Nat → String),
      scatterCount cfg.rows cfg.columns
        (generateInitialGrid cfg (foodsOf symbols) rolls ids) = 0) ∧
    generateInitialGridV2 exampleConfig exampleSymbols (fun _ _ => 37) (fun _ _ => ("i")) 0 0
      = some ⟨scatterSymbol, 0, 0, "i"⟩ := by
  constructor
  · intro cfg symbols rolls ids
    unfold scatterCount
    refine Finset.sum_eq_zero (fun r hr => Finset.sum_eq_zero (fun c hc => ?_))
    unfold generateInitialGrid
    by_cases hin : r < cfg.rows ∧ c < cfg.columns
    · rw [if_pos hin]
      simp [scatterInd, getRandomFoodSymbol_isScatter_false]
    · rw [if_neg hin]
      rfl
  · rfl

end Food

namespace Food

/-- A live order object on the heap: a pizza order in progress. -/
def examplePizzaOrder : Order := ⟨"pizza", 10, 0, 5, false⟩

def exampleOrderHeap : OrderHeap := ⟨fun _ => examplePizzaOrder⟩

/-- A live state whose `orders` array holds one reference. -/
def exampleRefState : RefState := ⟨[0]⟩

/-- Claim C3 (code bug in V2): `getState` of V1 and `part_000` deep-clones
the state (`JSON.parse(JSON.stringify(this.state))`), but V2's `getState`
returns `{ ...this.state }`, a shallow copy — the snapshot's `orders` array
is the very same object as the live one.  At a concrete one-order state the
snapshot shares the reference list with the live state, and after the engine
advances the order in place (`updateOrderProgress` during a later spin in
free-spin mode) the previously returned snapshot reads back changed. -/
theorem getStateV2_snapshot_aliases_live :
    (getStateV2 exampleRefState).ordersRefs = exampleRefState.ordersRefs ∧
    readOrders (heapUpdateOrderProgress exampleOrderHeap exampleRefState.ordersRefs ("pizza") 8)
        (getStateV2 exampleRefState).ordersRefs
      ≠ readOrders exampleOrderHeap (getStateV2 exampleRefState).ordersRefs := by
  decide

end Food

namespace Food

def exampleBuyRand : BuyRand := ⟨fun _ => 0, fun _ => 0, fun _ => 0⟩

/-- Claim C8: insufficient-balance rejection is atomic.  `spin()` validates
`balance < anteBet` and `buyFreeSpins` validates
`balance < cost × currentBet` before any mutation; each failure is reported
as an explicit error and the returned live state is exactly the pre-call
state (all fields).  For `spin` the reentrancy guard precedes the
validation, hence the idle hypothesis. -/
theorem insufficient_balance_rejection_atomic (cfg : GameConfig) (foods : List Symbol)
    (fuel : Nat) (rand : SpinRand) (brand : BuyRand) (packageType : PackageType)
    (s : GameState) (hidle : s.isSpinning = false) :
    (s.balance < anteBet cfg s →
      spin cfg foods fuel rand s = some (s, Except.error ("Insufficient balance"))) ∧
    (∀ g0 : Grid, s.balance < anteBet cfg s →
      spinOnGrid cfg foods fuel rand s g0 = some (s, Except.error ("Insufficient balance"))) ∧
    (s.balance < (packageOf cfg packageType).cost * s.currentBet →
      buyFreeSpins cfg foods packageType brand s
        = (s, Except.error ("Insufficient balance"))) := by
  refine ⟨?_, ?_, ?_⟩
  · intro hb
    unfold spin spinOnGrid
    rw [if_neg (by rw [hidle]; simp), if_pos hb]
  · intro g0 hb
    unfold spinOnGrid
    rw [if_neg (by rw [hidle]; simp), if_pos hb]
  · intro hb
    unfold buyFreeSpins
    exact if_pos hb

/-- Witness for C8: the idle example state with bet 10 and balance 3 is
rejected by both operations without mutation. -/
theorem insufficient_balance_rejection_atomic_witness :
    ({ exampleState with balance := 3 } : GameState).isSpinning = false ∧
    (({ exampleState with balance := 3 } : GameState).balance
        < anteBet exampleConfig { exampleState with balance := 3 } →
      spin exampleConfig exampleFoods 1 exampleSpinRand { exampleState with balance := 3 }
        = some ({ exampleState with balance := 3 }, Except.error ("Insufficient balance"))) ∧
    (∀ g0 : Grid, ({ exampleState with balance := 3 } : GameState).balance
        < anteBet exampleConfig { exampleState with balance := 3 } →
      spinOnGrid exampleConfig exampleFoods 1 exampleSpinRand
          { exampleState with balance := 3 } g0
        = some ({ exampleState with balance := 3 }, Except.error ("Insufficient balance"))) ∧
    (({ exampleState with balance := 3 } : GameState).balance
        < (packageOf exampleConfig PackageType.standard).cost
            * ({ exampleState with balance := 3 } : GameState).currentBet →
      buyFreeSpins exampleConfig exampleFoods PackageType.standard exampleBuyRand
          { exampleState with balance := 3 }
        = ({ exampleState with balance := 3 }, Except.error ("Insufficient balance"))) :=
  ⟨rfl, insufficient_balance_rejection_atomic exampleConfig exampleFoods 1 exampleSpinRand
    exampleBuyRand PackageType.standard { exampleState with balance := 3 } rfl⟩

end Food

namespace Food

/-- Claim C10: `buyFreeSpins` performs no check that a free-spin session is
already active.  For every state with sufficient balance — in particular one
with `isFreeSpins = true` — the purchase succeeds, deducts
`cost × currentBet`, overwrites `freeSpinsRemaining` with the package's spin
count (whatever was remaining), and replaces the whole orders list with
`min(pkg.maxOrders, fsMaxOrders)` freshly generated package orders
(collected 0, not completed), discarding any existing order progress without
settlement: the resulting orders do not depend on the prior state at all. -/
theorem buyFreeSpins_overwrites_active_session (cfg : GameConfig) (foods : List Symbol)
    (packageType : PackageType) (rand : BuyRand) (s : GameState)
    (_hfs : s.isFreeSpins = true)
    (hbal : (packageOf cfg packageType).cost * s.currentBet ≤ s.balance) :
    (buyFreeSpins cfg foods packageType rand s).2 = Except.ok () ∧
    (buyFreeSpins cfg foods packageType rand s).1.balance
      = s.balance - (packageOf cfg packageType).cost * s.currentBet ∧
    (buyFreeSpins cfg foods packageType rand s).1.isFreeSpins = true ∧
    (buyFreeSpins cfg foods packageType rand s).1.freeSpinsRemaining
      = (packageOf cfg packageType).spins ∧
    (buyFreeSpins cfg foods packageType rand s).1.orders
      = (List.range (min (packageOf cfg packageType).maxOrders cfg.fsMaxOrders)).map
          (mkBuyOrder cfg foods (packageOf cfg packageType) rand) ∧
    (∀ order ∈ (buyFreeSpins cfg foods packageType rand s).1.orders,
      order.collected = 0 ∧ order.completed = false) := by
  have hne : ¬s.balance < (packageOf cfg packageType).cost * s.currentBet := not_lt.mpr hbal
  unfold buyFreeSpins
  rw [if_neg hne]
  refine ⟨rfl, rfl, rfl, rfl, rfl, ?_⟩
  intro order horder
  rcases List.mem_map.mp horder with ⟨i, -, rfl⟩
  exact ⟨rfl, rfl⟩

/-- A mid-session free-spin state: 3 spins and an order in progress left. -/
def exampleFsState : GameState :=
  { exampleState with
    isFreeSpins := true
    freeSpinsRemaining := 3
    orders := [examplePizzaOrder] }

/-- Witness for C10: `exampleFsState` buys the standard package; the active
session is overwritten. -/
theorem buyFreeSpins_overwrites_active_session_witness :
    exampleFsState.isFreeSpins = true ∧
    (packageOf exampleConfig PackageType.standard).cost * exampleFsState.currentBet
      ≤ exampleFsState.balance ∧
    ((buyFreeSpins exampleConfig exampleFoods PackageType.standard exampleBuyRand
        exampleFsState).2 = Except.ok () ∧
      (buyFreeSpins exampleConfig exampleFoods PackageType.standard exampleBuyRand
        exampleFsState).1.balance
        = exampleFsState.balance
            - (packageOf exampleConfig PackageType.standard).cost
                * exampleFsState.currentBet ∧
      (buyFreeSpins exampleConfig exampleFoods PackageType.standard exampleBuyRand
        exampleFsState).1.isFreeSpins = true ∧
      (buyFreeSpins exampleConfig exampleFoods PackageType.standard exampleBuyRand
        exampleFsState).1.freeSpinsRemaining
        = (packageOf exampleConfig PackageType.standard).spins ∧
      (buyFreeSpins exampleConfig exampleFoods PackageType.standard exampleBuyRand
        exampleFsState).1.orders
        = (List.range (min (packageOf exampleConfig PackageType.standard).maxOrders
              exampleConfig.fsMaxOrders)).map
            (mkBuyOrder exampleConfig exampleFoods
              (packageOf exampleConfig PackageType.standard) exampleBuyRand) ∧
      (∀ order ∈ (buyFreeSpins exampleConfig exampleFoods PackageType.standard exampleBuyRand
          exampleFsState).1.orders,
        order.collected = 0 ∧ order.completed = false)) :=
  ⟨rfl, by decide,
    buyFreeSpins_overwrites_active_session exampleConfig exampleFoods PackageType.standard
      exampleBuyRand exampleFsState rfl (by decide)⟩

end Food

namespace Food

lemma spinPrepare_fields (cfg : GameConfig) (foods : List Symbol) (rand : SpinRand)
    (s : GameState) :
    (spinPrepare cfg foods rand s).balance = s.balance - anteBet cfg s ∧
    (spinPrepare cfg foods rand s).isFreeSpins = s.isFreeSpins ∧
    (spinPrepare cfg foods rand s).anteMode = s.anteMode ∧
    (spinPrepare cfg foods rand s).currentBet = s.currentBet ∧
    (spinPrepare cfg foods rand s).totalWin = 0 ∧
    (spinPrepare cfg foods rand s).freeSpinsRemaining = s.freeSpinsRemaining := by
  simp only [spinPrepare]
  split
  · exact ⟨rfl, rfl, rfl, rfl, rfl, rfl⟩
  · exact ⟨rfl, rfl, rfl, rfl, rfl, rfl⟩

lemma checkFreeSpinsTrigger_money (cfg : GameConfig) (foods : List Symbol)
    (rand : FsOrderRand) (s : GameState) :
    (checkFreeSpinsTrigger cfg foods rand s).balance = s.balance ∧
    (checkFreeSpinsTrigger cfg foods rand s).totalWin = s.totalWin ∧
    (checkFreeSpinsTrigger cfg foods rand s).currentBet = s.currentBet := by
  unfold checkFreeSpinsTrigger
  split
  · exact ⟨rfl, rfl, rfl⟩
  · exact ⟨rfl, rfl, rfl⟩

lemma checkOrderCompletion_money (s : GameState) :
    (checkOrderCompletion s).balance - (checkOrderCompletion s).totalWin
      = s.balance - s.totalWin := by
  simp only [checkOrderCompletion]
  split
  · split
    · show s.balance + _ - (s.totalWin + _) = _
      ring
    · show s.balance + _ - (s.totalWin + _) = _
      ring
  · show s.balance + _ - (s.totalWin + _) = _
    ring

lemma checkAllOrdersCompletion_money (cfg : GameConfig) (s : GameState) :
    (checkAllOrdersCompletion cfg s).balance - (checkAllOrdersCompletion cfg s).totalWin
      = s.balance - s.totalWin := by
  simp only [checkAllOrdersCompletion]
  show s.balance + _ - (s.totalWin + _) = _
  ring

lemma freeSpinsCountdown_money (cfg : GameConfig) (s : GameState) :
    (freeSpinsCountdown cfg s).balance - (freeSpinsCountdown cfg s).totalWin
      = s.balance - s.totalWin := by
  simp only [freeSpinsCountdown]
  split
  · split
    · exact checkAllOrdersCompletion_money cfg _
    · rfl
  · rfl

end Food

namespace Food

/-- Through the whole post-grid pipeline (cascades credit, trigger, order
completion, countdown) the balance grows by exactly the final `totalWin`:
every credit (cascade winnings, tips, super bonus) is added to both. -/
lemma spinResolve_money (cfg : GameConfig) (foods : List Symbol) (fuel : Nat)
    (rand : SpinRand) (sPrep : GameState) (g0 : Grid) (s' : GameState) (res : SpinResult)
    (h : spinResolve cfg foods fuel rand sPrep g0 = some (s', res)) :
    s'.balance - s'.totalWin = sPrep.balance := by
  unfold spinResolve at h
  rcases hrun : processCascades cfg foods sPrep.currentBet rand.refillRolls rand.refillIds
      fuel g0 sPrep.orders with - | result
  · rw [hrun] at h
    simp at h
  · rw [hrun] at h
    dsimp only at h
    rw [Option.some_inj] at h
    injection h with h1 h2
    subst h1
    rw [freeSpinsCountdown_money, checkOrderCompletion_money]
    dsimp only
    rw [(checkFreeSpinsTrigger_money cfg foods rand.fsOrders _).1]
    dsimp only
    omega

end Food

namespace Food

/-- Claim C9: free spins are not exempt from the bet deduction.  For every
idle state in free-spin mode: the state `spin()` builds before generating
the grid already carries `balance - anteBet`; every successful call returns
a state whose balance equals the old balance minus the ante-adjusted bet
plus the credited winnings (so the debit applies before any credit); and a
free spin with balance below the bet throws exactly like a normal spin. -/
theorem freeSpins_pay_ante_bet (cfg : GameConfig) (foods : List Symbol) (fuel : Nat)
    (rand : SpinRand) (s : GameState)
    (_hfs : s.isFreeSpins = true) (hidle : s.isSpinning = false) :
    (spinPrepare cfg foods rand s).balance = s.balance - anteBet cfg s ∧
    (∀ (g0 : Grid) (s' : GameState) (res : SpinResult),
        spinOnGrid cfg foods fuel rand s g0 = some (s', Except.ok res) →
        s'.balance = s.balance - anteBet cfg s + s'.totalWin) ∧
    (s.balance < anteBet cfg s →
        spin cfg foods fuel rand s = some (s, Except.error ("Insufficient balance"))) := by
  refine ⟨(spinPrepare_fields cfg foods rand s).1, ?_, ?_⟩
  · intro g0 s' res h
    unfold spinOnGrid at h
    rw [if_neg (by rw [hidle]; simp)] at h
    by_cases hb : s.balance < anteBet cfg s
    · rw [if_pos hb] at h
      simp at h
    · rw [if_neg hb] at h
      rcases Option.map_eq_some'.mp h with ⟨p, hp, heq⟩
      have hfst : p.1 = s' := congrArg Prod.fst heq
      have hmoney := spinResolve_money cfg foods fuel rand (spinPrepare cfg foods rand s) g0
        p.1 p.2 (by rw [← hp])
      rw [hfst, (spinPrepare_fields cfg foods rand s).1] at hmoney
      omega
  · intro hb
    unfold spin spinOnGrid
    rw [if_neg (by rw [hidle]; simp), if_pos hb]

/-- Witness for C9 at a concrete free-spin state on the win-free grid. -/
theorem freeSpins_pay_ante_bet_witness :
    exampleFsState.isFreeSpins = true ∧
    exampleFsState.isSpinning = false ∧
    ((spinPrepare exampleConfig exampleFoods exampleSpinRand exampleFsState).balance
        = exampleFsState.balance - anteBet exampleConfig exampleFsState ∧
      (∀ (g0 : Grid) (s' : GameState) (res : SpinResult),
        spinOnGrid exampleConfig exampleFoods 1 exampleSpinRand exampleFsState g0
          = some (s', Except.ok res) →
        s'.balance = exampleFsState.balance - anteBet exampleConfig exampleFsState
          + s'.totalWin) ∧
      (exampleFsState.balance < anteBet exampleConfig exampleFsState →
        spin exampleConfig exampleFoods 1 exampleSpinRand exampleFsState
          = some (exampleFsState, Except.error ("Insufficient balance")))) :=
  ⟨rfl, rfl, freeSpins_pay_ante_bet exampleConfig exampleFoods 1 exampleSpinRand
    exampleFsState rfl rfl⟩

end Food

namespace Food

lemma checkOrderCompletion_flags (s : GameState) :
    (checkOrderCompletion s).isFreeSpins = s.isFreeSpins ∧
    (checkOrderCompletion s).freeSpinsRemaining = s.freeSpinsRemaining ∧
    (checkOrderCompletion s).currentBet = s.currentBet := by
  simp only [checkOrderCompletion]
  split
  · split
    · exact ⟨rfl, rfl, rfl⟩
    · exact ⟨rfl, rfl, rfl⟩
  · exact ⟨rfl, rfl, rfl⟩

/-- In free-spin mode, orders none of which is newly complete pass through
`checkOrderCompletion` unchanged. -/
lemma checkOrderCompletion_orders_fs (s : GameState) (hfs : s.isFreeSpins = true)
    (hnone : ∀ order ∈ s.orders, ¬newlyComplete order) :
    (checkOrderCompletion s).orders = s.orders := by
  simp only [checkOrderCompletion]
  rw [if_neg (by rw [hfs]; simp)]
  show s.orders.map _ = s.orders
  have : ∀ order ∈ s.orders,
      (if newlyComplete order then { order with completed := true } else order) = order :=
    fun order horder => if_neg (hnone order horder)
  rw [List.map_congr_left this]
  exact List.map_id _

/-- With at least two spins remaining, the countdown just decrements. -/
lemma freeSpinsCountdown_decrement (cfg : GameConfig) (s : GameState)
    (hfs : s.isFreeSpins = true) (h2 : 2 ≤ s.freeSpinsRemaining) :
    freeSpinsCountdown cfg s = { s with freeSpinsRemaining := s.freeSpinsRemaining - 1 } := by
  simp only [freeSpinsCountdown]
  rw [if_pos ⟨hfs, by omega⟩, if_neg (by omega)]

end Food

namespace Food

/-- After the trigger has fired, order completion (free-spin branch, no
order newly complete) and the countdown leave the state in free-spin mode
with one spin already consumed and the fresh orders intact. -/
lemma tail_after_trigger (cfg : GameConfig) (s4in : GameState)
    (hfs4 : s4in.isFreeSpins = true) (hrem : s4in.freeSpinsRemaining = cfg.spinsAwarded)
    (hnone : ∀ order ∈ s4in.orders, ¬newlyComplete order) (haward : 2 ≤ cfg.spinsAwarded) :
    (freeSpinsCountdown cfg (checkOrderCompletion s4in)).isFreeSpins = true ∧
    (freeSpinsCountdown cfg (checkOrderCompletion s4in)).freeSpinsRemaining
      = cfg.spinsAwarded - 1 ∧
    (freeSpinsCountdown cfg (checkOrderCompletion s4in)).orders = s4in.orders := by
  have hf := checkOrderCompletion_flags s4in
  have hord := checkOrderCompletion_orders_fs s4in hfs4 hnone
  rw [freeSpinsCountdown_decrement cfg _ (hf.1.trans hfs4) (by rw [hf.2.1, hrem]; omega)]
  refine ⟨?_, ?_, ?_⟩
  · show (checkOrderCompletion s4in).isFreeSpins = true
    exact hf.1.trans hfs4
  · show (checkOrderCompletion s4in).freeSpinsRemaining - 1 = cfg.spinsAwarded - 1
    rw [hf.2.1, hrem]
  · show (checkOrderCompletion s4in).orders = s4in.orders
    exact hord

/-- The resolution pipeline on a prepared state outside free-spin mode whose
initial grid meets the ante-adjusted threshold: the trigger fires, and after
order completion and the countdown the returned state has entered free-spin
mode with `spinsAwarded - 1` spins left (the triggering spin itself consumed
one) and carries the freshly generated free-spin orders. -/
lemma spinResolve_trigger (cfg : GameConfig) (symbols : List Symbol) (fuel : Nat)
    (rand : SpinRand) (sP : GameState) (g0 : Grid) (result : CascadeResult)
    (hfs : sP.isFreeSpins = false)
    (hwp : WellPositioned cfg.rows cfg.columns g0)
    (hrun : processCascades cfg (foodsOf symbols) sP.currentBet rand.refillRolls
        rand.refillIds fuel g0 sP.orders = some result)
    (htrig : scatterThreshold cfg sP.anteMode
        ≤ (scatterCount cfg.rows cfg.columns g0 : ℤ))
    (haward : 2 ≤ cfg.spinsAwarded)
    (hqty : ∀ i, 0 < rand.fsOrders.qtyDraw i + cfg.fsMinQuantity) :
    ∃ (s' : GameState) (res : SpinResult),
      spinResolve cfg (foodsOf symbols) fuel rand sP g0 = some (s', res) ∧
      s'.isFreeSpins = true ∧
      s'.freeSpinsRemaining = cfg.spinsAwarded - 1 ∧
      s'.orders = (List.range (rand.fsOrders.countDraw + cfg.fsMinOrders)).map
        (mkFsOrder cfg (foodsOf symbols) rand.fsOrders) := by
  have hcnt : scatterCount cfg.rows cfg.columns result.grid
      = scatterCount cfg.rows cfg.columns g0 :=
    cascadeLoop_scatter cfg symbols sP.currentBet rand.refillRolls rand.refillIds
      fuel g0 sP.orders 0 [] [] 0 result hwp hrun
  have htrigger : checkFreeSpinsTrigger cfg (foodsOf symbols) rand.fsOrders
      { sP with grid := result.grid, orders := result.orders, cascadeSteps := result.steps }
      = triggerFreeSpins cfg (foodsOf symbols) rand.fsOrders
        { sP with grid := result.grid, orders := result.orders,
                  cascadeSteps := result.steps } := by
    unfold checkFreeSpinsTrigger
    refine if_pos ⟨?_, hfs⟩
    show scatterThreshold cfg sP.anteMode ≤ (scatterCount cfg.rows cfg.columns result.grid : ℤ)
    rw [hcnt]
    exact htrig
  have hnone : ∀ order ∈ ((List.range (rand.fsOrders.countDraw + cfg.fsMinOrders)).map
      (mkFsOrder cfg (foodsOf symbols) rand.fsOrders)), ¬newlyComplete order := by
    intro order horder
    rcases List.mem_map.mp horder with ⟨i, -, rfl⟩
    intro hcon
    exact absurd hcon.1 (not_le.mpr (hqty i))
  unfold spinResolve
  rw [hrun]
  dsimp only
  rw [htrigger]
  refine ⟨_, _, rfl, ?_, ?_, ?_⟩
  · exact (tail_after_trigger cfg _ rfl rfl hnone haward).1
  · exact (tail_after_trigger cfg _ rfl rfl hnone haward).2.1
  · exact (tail_after_trigger cfg _ rfl rfl hnone haward).2.2.trans rfl

end Food

namespace Food

/-- Claim C6 counterexample: a spin whose initial grid carries exactly the
threshold number of scatters (3) triggers free-spin mode, but the state
observable after the call returns holds `freeSpinsRemaining = 9`, not the
configured `spinsAwarded = 10`: the end-of-spin countdown already consumed
one spin during the triggering call itself. -/
theorem spin_trigger_remaining_counterexample :
    exampleConfig.spinsAwarded = 10 ∧
    scatterThreshold exampleConfig exampleState.anteMode
      ≤ (scatterCount exampleConfig.rows exampleConfig.columns exampleTriggerGrid : ℤ) ∧
    (spinOnGrid exampleConfig (foodsOf exampleSymbols) 1 exampleSpinRand exampleState
        exampleTriggerGrid).map (fun p => (p.1.isFreeSpins, p.1.freeSpinsRemaining))
      = some (true, 9) := by
  refine ⟨rfl, by decide, ?_⟩
  rfl

/-- Claim C6 (amended): for every spin started outside free-spin mode whose
initial grid meets the ante-adjusted scatter threshold (and whose cascades
terminate), the call returns with the engine in free-spin mode (provided at
least two spins are awarded), the orders list holding exactly the freshly
generated free-spin orders (fresh quantities are positive, so none completes
immediately), and `freeSpinsRemaining = spinsAwarded - 1`: the triggering
spin's own end-of-spin countdown consumes one awarded spin before `spin()`
returns. -/
theorem spin_trigger_award_off_by_one (cfg : GameConfig) (symbols : List Symbol)
    (fuel : Nat) (rand : SpinRand) (s : GameState) (g0 : Grid) (result : CascadeResult)
    (hfs : s.isFreeSpins = false) (hidle : s.isSpinning = false)
    (hbal : anteBet cfg s ≤ s.balance)
    (hwp : WellPositioned cfg.rows cfg.columns g0)
    (hrun : processCascades cfg (foodsOf symbols)
        (spinPrepare cfg (foodsOf symbols) rand s).currentBet rand.refillRolls
        rand.refillIds fuel g0 (spinPrepare cfg (foodsOf symbols) rand s).orders
        = some result)
    (htrig : scatterThreshold cfg s.anteMode
        ≤ (scatterCount cfg.rows cfg.columns g0 : ℤ))
    (haward : 2 ≤ cfg.spinsAwarded)
    (hqty : ∀ i, 0 < rand.fsOrders.qtyDraw i + cfg.fsMinQuantity) :
    ∃ (s' : GameState) (res : SpinResult),
      spinOnGrid cfg (foodsOf symbols) fuel rand s g0 = some (s', Except.ok res) ∧
      s'.isFreeSpins = true ∧
      s'.freeSpinsRemaining = cfg.spinsAwarded - 1 ∧
      s'.orders = (List.range (rand.fsOrders.countDraw + cfg.fsMinOrders)).map
        (mkFsOrder cfg (foodsOf symbols) rand.fsOrders) := by
  have hfields := spinPrepare_fields cfg (foodsOf symbols) rand s
  have htrigP : scatterThreshold cfg (spinPrepare cfg (foodsOf symbols) rand s).anteMode
      ≤ (scatterCount cfg.rows cfg.columns g0 : ℤ) := by
    rw [hfields.2.2.1]
    exact htrig
  obtain ⟨s', res, hres, hflag, hrem, hords⟩ :=
    spinResolve_trigger cfg symbols fuel rand (spinPrepare cfg (foodsOf symbols) rand s)
      g0 result (hfields.2.1.trans hfs) hwp hrun htrigP haward hqty
  refine ⟨s', res, ?_, hflag, hrem, hords⟩
  unfold spinOnGrid
  rw [if_neg (by rw [hidle]; simp), if_neg (not_lt.mpr hbal), hres]
  rfl

/-- Witness for the amended C6: the concrete three-scatter, win-free spin. -/
theorem spin_trigger_award_off_by_one_witness :
    exampleState.isFreeSpins = false ∧
    exampleState.isSpinning = false ∧
    anteBet exampleConfig exampleState ≤ exampleState.balance ∧
    WellPositioned exampleConfig.rows exampleConfig.columns exampleTriggerGrid ∧
    processCascades exampleConfig (foodsOf exampleSymbols)
        (spinPrepare exampleConfig (foodsOf exampleSymbols) exampleSpinRand
          exampleState).currentBet
        exampleSpinRand.refillRolls exampleSpinRand.refillIds 1 exampleTriggerGrid
        (spinPrepare exampleConfig (foodsOf exampleSymbols) exampleSpinRand
          exampleState).orders = some exampleTriggerResult ∧
    scatterThreshold exampleConfig exampleState.anteMode
      ≤ (scatterCount exampleConfig.rows exampleConfig.columns exampleTriggerGrid : ℤ) ∧
    2 ≤ exampleConfig.spinsAwarded ∧
    (∀ i, 0 < exampleSpinRand.fsOrders.qtyDraw i + exampleConfig.fsMinQuantity) ∧
    (∃ (s' : GameState) (res : SpinResult),
      spinOnGrid exampleConfig (foodsOf exampleSymbols) 1 exampleSpinRand exampleState
          exampleTriggerGrid = some (s', Except.ok res) ∧
      s'.isFreeSpins = true ∧
      s'.freeSpinsRemaining = exampleConfig.spinsAwarded - 1 ∧
      s'.orders = (List.range (exampleSpinRand.fsOrders.countDraw
          + exampleConfig.fsMinOrders)).map
        (mkFsOrder exampleConfig (foodsOf exampleSymbols) exampleSpinRand.fsOrders)) :=
  ⟨rfl, rfl, by decide,
    wellPositioned_mkGrid 5 6 exampleTriggerSymbol (fun _ _ => ("g")), rfl, by decide,
    by decide, fun i => by show (0:ℤ) < 0 + 10; decide,
    spin_trigger_award_off_by_one exampleConfig exampleSymbols 1 exampleSpinRand
      exampleState exampleTriggerGrid exampleTriggerResult rfl rfl (by decide)
      (wellPositioned_mkGrid 5 6 exampleTriggerSymbol (fun _ _ => ("g"))) rfl
      (by decide) (by decide) (fun i => by show (0:ℤ) < 0 + 10; decide)⟩

end Food
